import Mathlib

/-!
Verification development for the WebSocket Connection Security Gateway of the
`autoborosai-dashboard` repository.  The definitions below are a shallow
embedding of the TypeScript sources
`src/lib/security/websocket-rate-limiter.ts`,
`src/lib/security/websocket-auth.ts` and
`src/lib/security/websocket-security.ts` (plus the shared type definitions):
pure functions become Lean functions, the mutable in-process stores become
explicit state passing, `Date.now()` becomes an explicit `now : Nat`
parameter (milliseconds), and JavaScript numbers that can go negative
(`remaining`) are modelled as `Int`.
-/

set_option maxHeartbeats 1000000

/-- Result record returned by every rate-limit check, mirroring the
`RateLimitResult` interface of `websocket-security-types.ts`. -/
structure RateLimitResult where
  allowed : Bool
  remaining : Int
  resetTime : Nat
  retryAfter : Option Nat := none
deriving Repr, DecidableEq

/-- Stored per-key counter state, mirroring `RateLimitState`. -/
structure RateLimitState where
  count : Nat
  resetTime : Nat
deriving Repr, DecidableEq

/-- Per-message-type quota configuration, mirroring `RateLimitConfig`. -/
structure RateLimitConfig where
  windowMs : Nat
  maxRequests : Nat
deriving Repr, DecidableEq

/-- Connection-admission quota configuration, mirroring
`ConnectionRateLimitConfig`. -/
structure ConnectionRateLimitConfig where
  maxConnectionsPerUser : Nat
  maxConnectionsPerIp : Nat
  windowMs : Nat
deriving Repr, DecidableEq

/-- The in-process backing store of the limiter (`MemoryStorage` in the
source): a partial map from string keys to `RateLimitState`. -/
def MemoryStorage : Type := String → Option RateLimitState

/-- The empty in-process store (fresh `memoryStorage = {}` of the source). -/
def MemoryStorage.empty : MemoryStorage := fun _ => none

/-- Natural-number ceiling division, used to embed
`Math.ceil(d / q)` for the non-negative differences the source feeds it. -/
def ceilDiv (d q : Nat) : Nat := (d + q - 1) / q

/-! Executable character-list models of the JavaScript string operations the
gateway uses (`toLowerCase`, `trim`, `startsWith`, `endsWith`, `split`,
`slice`/drop, join). -/

/-- Whitespace as JavaScript `trim` removes it (restricted to the ASCII
whitespace characters). -/
def jsWhitespaceChar (c : Char) : Bool :=
  c = ' ' || c = '\t' || c = '\n' || c = '\r' || c = '\x0b' || c = '\x0c'

/-- Model of JavaScript `toLowerCase()`. -/
def jsToLower (s : String) : String := String.mk (s.data.map Char.toLower)

/-- Model of JavaScript `trim()`: strip leading and trailing whitespace. -/
def jsTrim (s : String) : String :=
  String.mk
    (((s.data.dropWhile (fun c => jsWhitespaceChar c)).reverse.dropWhile
      (fun c => jsWhitespaceChar c)).reverse)

/-- Model of JavaScript `s.startsWith(pat)`. -/
def jsStartsWith (s pat : String) : Bool := pat.data.isPrefixOf s.data

/-- Model of JavaScript `s.endsWith(pat)`. -/
def jsEndsWith (s pat : String) : Bool := pat.data.isSuffixOf s.data

/-- Drop the first `n` characters of a string. -/
def jsDrop (s : String) (n : Nat) : String := String.mk (s.data.drop n)

/-- Split a character list on a separator character (JavaScript
`split(sep)` semantics: `"a,"` splits into `["a", ""]`, `""` into `[""]`). -/
def jsSplitChars (c : Char) : List Char → List (List Char)
  | [] => [[]]
  | x :: xs =>
      let r := jsSplitChars c xs
      if x = c then [] :: r
      else
        match r with
        | [] => [[x]]
        | h :: t => (x :: h) :: t

/-- Model of JavaScript `s.split(sep)` for a one-character separator. -/
def jsSplit (s : String) (c : Char) : List String :=
  (jsSplitChars c s.data).map String.mk

/-- Model of JavaScript `parts.join(sep)` for a one-character separator. -/
def jsJoin (c : Char) (l : List String) : String :=
  String.mk (((l.map String.data).intersperse [c]).flatten)

namespace WebSocketRateLimiter

/-- Key construction of `getConnectionKey` (template
`ws:conn:<type>:<identifier>`). -/
def getConnectionKey (type identifier : String) : String :=
  "ws:conn:" ++ type ++ ":" ++ identifier

/-- Key construction of `getMessageKey` (template
`ws:msg:<connectionId>:<messageType>`). -/
def getMessageKey (connectionId messageType : String) : String :=
  "ws:msg:" ++ connectionId ++ ":" ++ messageType

/-- Embedding of `checkMemoryRateLimit`: read the state for `key`; an absent
or expired (`now > resetTime`) state yields a fresh full quota with
`resetTime = now + windowMs`; a current state denies when
`count >= maxRequests` and otherwise reports the remaining quota. -/
def checkMemoryRateLimit (σ : MemoryStorage) (key : String)
    (maxRequests windowMs now : Nat) : RateLimitResult :=
  match σ key with
  | none =>
      { allowed := true, remaining := (maxRequests : Int), resetTime := now + windowMs }
  | some state =>
      if now > state.resetTime then
        { allowed := true, remaining := (maxRequests : Int), resetTime := now + windowMs }
      else if state.count ≥ maxRequests then
        { allowed := false, remaining := 0, resetTime := state.resetTime }
      else
        { allowed := true, remaining := (maxRequests : Int) - (state.count : Int),
          resetTime := state.resetTime }

/-- Embedding of `incrementMemoryCounter`: initialize to `count = 1` with the
supplied `resetTime` when the key is absent or expired, otherwise increment
the stored count in place (the stored `resetTime` does not slide). -/
def incrementMemoryCounter (σ : MemoryStorage) (key : String)
    (resetTime now : Nat) : MemoryStorage :=
  fun k =>
    if k = key then
      match σ key with
      | none => some { count := 1, resetTime := resetTime }
      | some state =>
          if now > state.resetTime then
            some { count := 1, resetTime := resetTime }
          else
            some { count := state.count + 1, resetTime := state.resetTime }
    else σ k

/-- Embedding of `incrementCounter` (in-process branch): computes
`resetTime = now + windowMs` and delegates to `incrementMemoryCounter`. -/
def incrementCounter (σ : MemoryStorage) (key : String)
    (windowMs now : Nat) : MemoryStorage :=
  incrementMemoryCounter σ key (now + windowMs) now

/-- One paired check-then-increment call on a single key, exactly the body
shape shared by `checkMessageRateLimit` (and each half of
`checkConnectionRateLimit`): check, and on denial attach
`retryAfter = ceil((resetTime - now) / 1000)`; on success increment the
counter and report `remaining - 1`. -/
def pairedCheck (σ : MemoryStorage) (key : String)
    (maxRequests windowMs now : Nat) : RateLimitResult × MemoryStorage :=
  let result := checkMemoryRateLimit σ key maxRequests windowMs now
  if result.allowed then
    ({ allowed := true, remaining := result.remaining - 1,
       resetTime := result.resetTime, retryAfter := none },
     incrementCounter σ key windowMs now)
  else
    ({ result with retryAfter := some (ceilDiv (result.resetTime - now) 1000) }, σ)

/-- Embedding of the limiter's `checkMessageRateLimit` (in-process backend):
resolve the quota configuration by message-type lookup with a fallback to the
default quota, then run the paired check on the message key. -/
def checkMessageRateLimit (messageLimits : String → Option RateLimitConfig)
    (defaultLimit : RateLimitConfig) (σ : MemoryStorage)
    (connectionId messageType : String) (now : Nat) :
    RateLimitResult × MemoryStorage :=
  let key := getMessageKey connectionId messageType
  let limitConfig := (messageLimits messageType).getD defaultLimit
  pairedCheck σ key limitConfig.maxRequests limitConfig.windowMs now

/-- Embedding of the limiter's `checkConnectionRateLimit` (in-process
backend): check the per-user key, short-circuit on denial, check the per-IP
key, short-circuit on denial, then increment both counters and report
`min(userRemaining, ipRemaining) - 1` and the later of the two reset times. -/
def checkConnectionRateLimit (σ : MemoryStorage) (userId ip : String)
    (config : ConnectionRateLimitConfig) (now : Nat) :
    RateLimitResult × MemoryStorage :=
  let userKey := getConnectionKey "user" userId
  let ipKey := getConnectionKey "ip" ip
  let userResult :=
    checkMemoryRateLimit σ userKey config.maxConnectionsPerUser config.windowMs now
  if userResult.allowed = false then
    ({ userResult with retryAfter := some (ceilDiv (userResult.resetTime - now) 1000) }, σ)
  else
    let ipResult :=
      checkMemoryRateLimit σ ipKey config.maxConnectionsPerIp config.windowMs now
    if ipResult.allowed = false then
      ({ ipResult with retryAfter := some (ceilDiv (ipResult.resetTime - now) 1000) }, σ)
    else
      let σ1 := incrementCounter σ userKey config.windowMs now
      let σ2 := incrementCounter σ1 ipKey config.windowMs now
      ({ allowed := true,
         remaining := min userResult.remaining ipResult.remaining - 1,
         resetTime := max userResult.resetTime ipResult.resetTime }, σ2)

/-- Embedding of `decrementConnectionCounter` (in-process backend): decrement
the per-user and per-IP connection counters by one when present and
positive (floor zero; an absent key is untouched). -/
def decrementConnectionCounter (σ : MemoryStorage) (userId ip : String) :
    MemoryStorage :=
  let userKey := getConnectionKey "user" userId
  let ipKey := getConnectionKey "ip" ip
  let dec : MemoryStorage → String → MemoryStorage := fun σ' key => fun k =>
    if k = key then
      match σ' key with
      | some state =>
          if state.count > 0 then
            some { count := state.count - 1, resetTime := state.resetTime }
          else some state
      | none => none
    else σ' k
  dec (dec σ userKey) ipKey

/-- Embedding of `resetRateLimit` (in-process branch): delete the key's
stored state directly. -/
def resetRateLimit (σ : MemoryStorage) (key : String) : MemoryStorage :=
  fun k => if k = key then none else σ k

/-- Embedding of `getRateLimitStatus` (in-process branch): return the stored
state only while `Date.now() <= resetTime`, otherwise `null` (the state is
not deleted). -/
def getRateLimitStatus (σ : MemoryStorage) (key : String) (now : Nat) :
    Option RateLimitState :=
  match σ key with
  | some state => if now ≤ state.resetTime then some state else none
  | none => none

/-- Abstraction of the external-store (Redis) contents as seen through the
client's `get`/`set`/`del` capability: a partial map from keys to the decoded
`RateLimitState` (the JSON round trip through `JSON.parse ∘ JSON.stringify`
is the identity on this record; the time-to-live expiry of the store is not
modelled here because the administrative operations below never consult it). -/
def RedisStorage : Type := String → Option RateLimitState

/-- Embedding of `resetRateLimit` (external-store branch): `redis.del`,
deleting the key's stored state directly. -/
def resetRateLimitRedis (ρ : RedisStorage) (key : String) : RedisStorage :=
  fun k => if k = key then none else ρ k

/-- Embedding of `getRateLimitStatus` (external-store branch): `redis.get`
followed by `JSON.parse`, returning the raw stored state with no window
interpretation. -/
def getRateLimitStatusRedis (ρ : RedisStorage) (key : String) :
    Option RateLimitState :=
  ρ key

/-- One generic paired check-then-increment request in an interleaved trace:
the key it targets, the quota it is checked against, and the instant at which
it runs. -/
structure RLOp where
  key : String
  maxRequests : Nat
  windowMs : Nat
  now : Nat
deriving Repr, DecidableEq

/-- Run a sequence of paired check-then-increment calls (possibly on many
different keys) against one in-process store, collecting each call's key and
verdict in order. -/
def runOps (σ : MemoryStorage) : List RLOp → List (String × Bool) × MemoryStorage
  | [] => ([], σ)
  | op :: rest =>
      let step := pairedCheck σ op.key op.maxRequests op.windowMs op.now
      let tail := runOps step.2 rest
      ((op.key, step.1.allowed) :: tail.1, tail.2)

/-- Verdicts of the calls that targeted key `k`, in order. -/
def verdictsFor (k : String) (trace : List (String × Bool)) : List Bool :=
  trace.filterMap (fun p => if p.1 = k then some p.2 else none)

/-- Number of operations in a trace that target key `k`. -/
def countFor (k : String) (ops : List RLOp) : Nat :=
  (ops.filter (fun op => op.key = k)).length

end WebSocketRateLimiter

/-- Effective count of a key at instant `now`: the stored count while the
window is current, zero when absent or expired (this is the count the next
check actually sees). -/
def effCount (σ : MemoryStorage) (key : String) (now : Nat) : Nat :=
  match σ key with
  | none => 0
  | some state => if now > state.resetTime then 0 else state.count

/-- Remaining quota of a key at instant `now` under a ceiling of
`maxRequests`: `maxRequests - effective count` as an integer. -/
def keyRemaining (σ : MemoryStorage) (key : String) (maxRequests now : Nat) : Int :=
  (maxRequests : Int) - (effCount σ key now : Int)

/-- Value of a request header as delivered by Node, which may be a single
string, an array of strings, or absent (mirrors the
`string | string[] | undefined` header type of `WebSocketUpgradeRequest`). -/
inductive HeaderValue where
  | absent
  | str (s : String)
  | arr (l : List String)
deriving Repr, DecidableEq

/-- Embedding of `WebSocketUpgradeRequest`: the headers the gateway reads,
the transport peer address, and the (possibly relative) connection URL. -/
structure WebSocketUpgradeRequest where
  origin : HeaderValue := HeaderValue.absent
  userAgent : Option String := none
  xForwardedFor : HeaderValue := HeaderValue.absent
  xRealIp : HeaderValue := HeaderValue.absent
  remoteAddress : Option String := none
  url : Option String := none
deriving Repr, DecidableEq

/-- Embedding of `AuthenticatedUser`. -/
structure AuthenticatedUser where
  id : String
  email : String
  roles : List String
  permissions : List String
  sessionId : String
deriving Repr, DecidableEq

/-- Embedding of `AuthenticationResult`. -/
structure AuthenticationResult where
  success : Bool
  user : Option AuthenticatedUser := none
  error : Option String := none
  code : Option Nat := none
deriving Repr, DecidableEq

/-- Embedding of `ValidationResult` (origin validation outcome). -/
structure ValidationResult where
  valid : Bool
  error : Option String := none
  code : Option Nat := none
deriving Repr, DecidableEq

/-- Configuration held by a constructed token authenticator (`JWTConfig` of
`websocket-auth.ts`; the secret is kept as the original string, standing for
its `TextEncoder` byte encoding). -/
structure AuthHandlerConfig where
  secret : String
  algorithm : String
deriving Repr, DecidableEq

namespace WebSocketAuthHandler

/-- Hexadecimal digit value, for percent-decoding. -/
def hexVal (c : Char) : Option Nat :=
  if '0' ≤ c ∧ c ≤ '9' then some (c.toNat - '0'.toNat)
  else if 'a' ≤ c ∧ c ≤ 'f' then some (c.toNat - 'a'.toNat + 10)
  else if 'A' ≤ c ∧ c ≤ 'F' then some (c.toNat - 'A'.toNat + 10)
  else none

/-- Character-level `application/x-www-form-urlencoded` decoding as performed
by `URLSearchParams`: `+` becomes a space, `%hh` becomes the character with
that code, and an invalid percent escape is left as-is. -/
def percentDecodeChars : List Char → List Char
  | [] => []
  | '+' :: rest => ' ' :: percentDecodeChars rest
  | '%' :: h₁ :: h₂ :: rest =>
      match hexVal h₁, hexVal h₂ with
      | some v₁, some v₂ => Char.ofNat (16 * v₁ + v₂) :: percentDecodeChars rest
      | _, _ => '%' :: percentDecodeChars (h₁ :: h₂ :: rest)
  | c :: rest => c :: percentDecodeChars rest

/-- String-level form-urlencoded decoding. -/
def percentDecode (s : String) : String :=
  String.mk (percentDecodeChars s.data)

/-- Name/value pairs of a query string, as `URLSearchParams` splits it:
pairs on `&` (empty pairs skipped), each pair at its first `=` (a pair with
no `=` has an empty value). -/
def queryPairs (query : String) : List (String × String) :=
  (jsSplit query '&').filterMap fun pair =>
    if pair = "" then none
    else
      match jsSplit pair '=' with
      | [] => none
      | [name] => some (name, "")
      | name :: rest => some (name, jsJoin '=' rest)

/-- Embedding of `urlObj.searchParams.get(name)`: the decoded value of the
first pair whose decoded name matches, or `none`. -/
def searchParamsGet (query name : String) : Option String :=
  (((queryPairs query).filter (fun p => percentDecode p.1 = name)).head?).map
    (fun p => percentDecode p.2)

/-- Parts of a parsed `ws://`/`wss://` URL that the authenticator consults. -/
structure URLParts where
  host : String
  query : String
deriving Repr, DecidableEq

/-- Characters that make a host invalid under the WHATWG URL parser. -/
def forbiddenHostChar (c : Char) : Bool :=
  c = ' ' || c = '<' || c = '>' || c = '\\' || c = '^' || c = '|'

/-- Model of the WHATWG `new URL(...)` parse, restricted to the `ws://` and
`wss://` URL strings the authenticator constructs: scheme, then the
authority up to the first `/`, `?` or `#` (host after the last `@`,
optional numeric port after `:`), then the query between the first `?` and
any `#`.  A parse failure (which `new URL` signals by throwing) is an
`Except.error`. -/
def parseWsUrl (s : String) : Except String URLParts :=
  let rest? : Option String :=
    if jsStartsWith s "ws://" then some (jsDrop s 5)
    else if jsStartsWith s "wss://" then some (jsDrop s 6)
    else none
  match rest? with
  | none => Except.error "unsupported scheme"
  | some rest =>
      let authorityChars :=
        rest.data.takeWhile (fun c => c ≠ '/' && c ≠ '?' && c ≠ '#')
      let authority := String.mk authorityChars
      let tail := rest.data.drop authorityChars.length
      let hostPort := (jsSplit authority '@').getLastD authority
      let hostAndPort : Except String (String × Option String) :=
        match jsSplit hostPort ':' with
        | [h] => Except.ok (h, none)
        | [h, p] => Except.ok (h, some p)
        | _ => Except.error "invalid host"
      match hostAndPort with
      | Except.error e => Except.error e
      | Except.ok (host, port?) =>
          if host = "" then Except.error "empty host"
          else if host.data.any (fun c => forbiddenHostChar c) then
            Except.error "forbidden host character"
          else if (match port? with
                   | none => true
                   | some p => p = "" || p.data.all Char.isDigit) = false then
            Except.error "invalid port"
          else
            let beforeFrag := tail.takeWhile (fun c => c ≠ '#')
            let afterQ := beforeFrag.dropWhile (fun c => c ≠ '?')
            let query :=
              match afterQ with
              | [] => ""
              | _ :: qs => String.mk qs
            Except.ok { host := host, query := query }

/-- URL string actually handed to `new URL(...)`: a relative request path is
completed to an absolute `ws://localhost` URL. -/
def mkWsUrlString (url : String) : String :=
  if jsStartsWith url "ws://" || jsStartsWith url "wss://" then url
  else "ws://localhost" ++ url

/-- Body of `extractTokenFromUrl` before its `try`/`catch`: an absent or
empty (falsy) `request.url` yields no token; otherwise the URL string is
completed to an absolute `ws://localhost...` URL when relative, parsed
(propagating a parse fault as `Except.error`), and the `token` query
parameter is read, an absent or empty (falsy) value yielding no token. -/
def extractTokenFromUrlE (request : WebSocketUpgradeRequest) :
    Except String (Option String) :=
  match request.url with
  | none => Except.ok none
  | some url =>
      if url = "" then Except.ok none
      else
        match parseWsUrl (mkWsUrlString url) with
        | Except.error e => Except.error e
        | Except.ok urlObj =>
            match searchParamsGet urlObj.query "token" with
            | none => Except.ok none
            | some token =>
                if token = "" then Except.ok none else Except.ok (some token)

/-- Embedding of `extractTokenFromUrl`: the body above with its `catch`
clause, which degrades any parse fault to `null` ("no token"). -/
def extractTokenFromUrl (request : WebSocketUpgradeRequest) : Option String :=
  match extractTokenFromUrlE request with
  | Except.error _ => none
  | Except.ok t => t

/-- Embedding of the auth handler's `authenticate`: extract the token from
the URL, report a 401 "Missing authentication token" denial when there is
none, and otherwise delegate to `verifyToken` (the cryptographic JWT
verification, abstracted as a parameter). -/
def authenticate (verifyToken : String → AuthenticationResult)
    (request : WebSocketUpgradeRequest) : AuthenticationResult :=
  match extractTokenFromUrl request with
  | none =>
      { success := false, error := some "Missing authentication token",
        code := some 401 }
  | some token => verifyToken token

end WebSocketAuthHandler

/-- Embedding of the factory `createWebSocketAuthHandler`: refuse (throw) on
a falsy secret or one shorter than 32 characters, otherwise construct the
handler configuration with the `HS256` algorithm default. -/
def createWebSocketAuthHandler (secret : String) (algorithm : Option String) :
    Except String AuthHandlerConfig :=
  if secret = "" || secret.length < 32 then
    Except.error "JWT secret must be at least 32 characters long"
  else
    Except.ok { secret := secret, algorithm := algorithm.getD "HS256" }

/-- Embedding of `WebSocketConnectionContext`. -/
structure WebSocketConnectionContext where
  user : Option AuthenticatedUser
  ip : String
  origin : String
  userAgent : String
  connectionTime : Nat
  lastActivity : Nat
  messageCount : Nat
  connectionId : String
deriving Repr, DecidableEq

/-- Mutable state owned by one `WebSocketSecurityMiddleware` instance: the
connection context registry and the in-process rate-limit store, plus the
spy counters of spec §8 recording how often the token authenticator and the
connection rate limiter have been invoked. -/
structure GatewayState where
  connectionContexts : String → Option WebSocketConnectionContext
  memoryStorage : MemoryStorage
  authCalls : Nat
  rateCalls : Nat

/-- State of a freshly constructed middleware: empty registry and store. -/
def GatewayState.initial : GatewayState :=
  { connectionContexts := fun _ => none, memoryStorage := MemoryStorage.empty,
    authCalls := 0, rateCalls := 0 }

/-- Verdict of `performSecurityCheck`. -/
structure SecurityCheckResult where
  allowed : Bool
  result : Option AuthenticationResult := none
  error : Option String := none
  code : Option Nat := none
deriving Repr, DecidableEq

/-- Default message-type quota table (`DEFAULT_MESSAGE_RATE_LIMITS`). -/
def DEFAULT_MESSAGE_RATE_LIMITS : String → Option RateLimitConfig := fun t =>
  if t = "AGENT_STATUS_UPDATE" then some { windowMs := 60000, maxRequests := 100 }
  else if t = "CHAT_MESSAGE" then some { windowMs := 60000, maxRequests := 50 }
  else if t = "METRICS_REQUEST" then some { windowMs := 60000, maxRequests := 200 }
  else none

/-- Default connection quota (`DEFAULT_CONNECTION_RATE_LIMIT`). -/
def DEFAULT_CONNECTION_RATE_LIMIT : ConnectionRateLimitConfig :=
  { maxConnectionsPerUser := 5, maxConnectionsPerIp := 10, windowMs := 60000 }

/-- Default fallback quota (`DEFAULT_RATE_LIMIT`). -/
def DEFAULT_RATE_LIMIT : RateLimitConfig := { windowMs := 60000, maxRequests := 100 }

/-- Default origin allow-list (`ALLOWED_ORIGINS`). -/
def ALLOWED_ORIGINS : List String :=
  ["https://app.antigravity.dev", "https://staging.antigravity.dev",
   "http://localhost:3000"]

/-- Resolved middleware configuration (`WebSocketSecurityConfig`). -/
structure WebSocketSecurityConfig where
  allowedOrigins : List String
  jwtSecret : String
  jwtAlgorithm : String
  connectionRateLimit : ConnectionRateLimitConfig
  messageRateLimits : String → Option RateLimitConfig
  defaultRateLimit : RateLimitConfig
  enableLogging : Bool

/-- Constructor input: `Partial<WebSocketSecurityConfig> & (jwtSecret)`,
absent fields falling back to the defaults above. -/
structure SecurityConfigInput where
  allowedOrigins : Option (List String) := none
  jwtSecret : String
  jwtAlgorithm : Option String := none
  connectionRateLimit : Option ConnectionRateLimitConfig := none
  messageRateLimits : Option (String → Option RateLimitConfig) := none
  defaultRateLimit : Option RateLimitConfig := none
  enableLogging : Option Bool := none

/-- Embedding of the `WebSocketSecurityMiddleware` constructor: resolve the
configuration against the defaults and construct the token authenticator via
`createWebSocketAuthHandler`, whose thrown configuration error (short
secret) propagates and prevents the middleware from being constructed. -/
def mkWebSocketSecurityMiddleware (input : SecurityConfigInput) :
    Except String WebSocketSecurityConfig :=
  let config : WebSocketSecurityConfig :=
    { allowedOrigins := input.allowedOrigins.getD ALLOWED_ORIGINS,
      jwtSecret := input.jwtSecret,
      jwtAlgorithm := input.jwtAlgorithm.getD "HS256",
      connectionRateLimit :=
        input.connectionRateLimit.getD DEFAULT_CONNECTION_RATE_LIMIT,
      messageRateLimits := fun t =>
        match input.messageRateLimits with
        | some overrides =>
            match overrides t with
            | some c => some c
            | none => DEFAULT_MESSAGE_RATE_LIMITS t
        | none => DEFAULT_MESSAGE_RATE_LIMITS t,
      defaultRateLimit := input.defaultRateLimit.getD DEFAULT_RATE_LIMIT,
      enableLogging :=
        match input.enableLogging with
        | some false => false
        | _ => true }
  match createWebSocketAuthHandler config.jwtSecret (some config.jwtAlgorithm) with
  | Except.error e => Except.error e
  | Except.ok _ => Except.ok config

namespace WebSocketSecurityMiddleware

/-- Embedding of JavaScript `value || 'unknown'` on an optional string
(`undefined` and the empty string are falsy). -/
def jsOrUnknown (o : Option String) : String :=
  match o with
  | some s => if s = "" then "unknown" else s
  | none => "unknown"

/-- Embedding of `extractOrigin`: a string header is returned as-is, a
non-empty array header yields its first element, anything else is absent. -/
def extractOrigin (request : WebSocketUpgradeRequest) : Option String :=
  match request.origin with
  | HeaderValue.str s => some s
  | HeaderValue.arr (h :: _) => some h
  | _ => none

/-- Embedding of `extractIp`: first entry of `x-forwarded-for` (split on the
comma, trimmed), else `x-real-ip`, else the transport peer address, else the
literal string "unknown". -/
def extractIp (request : WebSocketUpgradeRequest) : String :=
  match request.xForwardedFor with
  | HeaderValue.str s => jsTrim ((jsSplit s ',').headD "")
  | HeaderValue.arr (h :: _) => jsTrim ((jsSplit h ',').headD "")
  | _ =>
      match request.xRealIp with
      | HeaderValue.str s => s
      | HeaderValue.arr (h :: _) => h
      | _ => jsOrUnknown request.remoteAddress

/-- Strip of the leading `http://` or `https://` scheme performed by the
regex replace in `validateOrigin`. -/
def stripHttpScheme (s : String) : String :=
  if jsStartsWith s "https://" then jsDrop s 8
  else if jsStartsWith s "http://" then jsDrop s 7
  else s

/-- One allow-list comparison of `validateOrigin`: the entry is lower-cased
and trimmed, and matches either exactly or as the suffix `.` + the entry
stripped of its scheme. -/
def originMatches (normalizedOrigin entry : String) : Bool :=
  let normalizedAllowed := jsTrim (jsToLower entry)
  normalizedOrigin = normalizedAllowed ||
    jsEndsWith normalizedOrigin ("." ++ stripHttpScheme normalizedAllowed)

/-- Embedding of `validateOrigin`: an absent (or empty, falsy) `Origin`
header is permissively valid; otherwise the lower-cased and trimmed origin
is compared against every allow-list entry, and on no match the request is
rejected with status 403 and the message "Origin not allowed". -/
def validateOrigin (allowedOrigins : List String)
    (request : WebSocketUpgradeRequest) : ValidationResult :=
  match extractOrigin request with
  | none => { valid := true }
  | some origin =>
      if origin = "" then { valid := true }
      else
        let normalizedOrigin := jsTrim (jsToLower origin)
        if allowedOrigins.any (fun allowed => originMatches normalizedOrigin allowed) then
          { valid := true }
        else
          { valid := false, error := some "Origin not allowed", code := some 403 }

/-- Embedding of the middleware's `authenticate`: delegate to the token
authenticator (counted by the `authCalls` spy), and on success build a
connection context and insert it into the registry under the freshly
generated connection id. -/
def authenticate (verifyToken : String → AuthenticationResult)
    (request : WebSocketUpgradeRequest) (connectionId : String) (now : Nat)
    (g : GatewayState) : AuthenticationResult × GatewayState :=
  let result := WebSocketAuthHandler.authenticate verifyToken request
  let g₁ : GatewayState := { g with authCalls := g.authCalls + 1 }
  if result.success then
    let context : WebSocketConnectionContext :=
      { user := result.user,
        ip := extractIp request,
        origin := jsOrUnknown (extractOrigin request),
        userAgent := jsOrUnknown request.userAgent,
        connectionTime := now,
        lastActivity := now,
        messageCount := 0,
        connectionId := connectionId }
    (result,
     { g₁ with connectionContexts := fun c =>
         if c = connectionId then some context else g₁.connectionContexts c })
  else
    (result, g₁)

/-- Embedding of the middleware's `checkConnectionRateLimit`: delegate to
the limiter (counted by the `rateCalls` spy); a denial is audited only. -/
def checkConnectionRateLimit (config : ConnectionRateLimitConfig)
    (userId ip : String) (now : Nat) (g : GatewayState) :
    RateLimitResult × GatewayState :=
  let step := WebSocketRateLimiter.checkConnectionRateLimit g.memoryStorage
    userId ip config now
  (step.1, { g with memoryStorage := step.2, rateCalls := g.rateCalls + 1 })

/-- Embedding of the middleware's `checkMessageRateLimit`: delegate to the
limiter, then on an allowed verdict bump the context's `messageCount` and
`lastActivity` when the connection is registered; a denial (or an unknown
connection id) leaves the registry untouched. -/
def checkMessageRateLimit (messageLimits : String → Option RateLimitConfig)
    (defaultLimit : RateLimitConfig) (connectionId messageType : String)
    (now : Nat) (g : GatewayState) : RateLimitResult × GatewayState :=
  let step := WebSocketRateLimiter.checkMessageRateLimit messageLimits
    defaultLimit g.memoryStorage connectionId messageType now
  let g₁ : GatewayState := { g with memoryStorage := step.2 }
  if step.1.allowed then
    match g₁.connectionContexts connectionId with
    | some context =>
        (step.1,
         { g₁ with connectionContexts := fun c =>
             if c = connectionId then
               some { context with messageCount := context.messageCount + 1,
                                   lastActivity := now }
             else g₁.connectionContexts c })
    | none => (step.1, g₁)
  else
    (step.1, g₁)

/-- Embedding of `handleConnectionClose`: decrement the connection counters
when the context records a user, then delete the registry entry (a no-op
delete when the id is unknown). -/
def handleConnectionClose (connectionId : String) (g : GatewayState) :
    GatewayState :=
  let g₁ : GatewayState :=
    match g.connectionContexts connectionId with
    | some context =>
        match context.user with
        | some user =>
            { g with memoryStorage :=
                (WebSocketRateLimiter.decrementConnectionCounter
                  g.memoryStorage user.id context.ip) }
        | none => g
    | none => g
  { g₁ with connectionContexts := fun c =>
      if c = connectionId then none else g₁.connectionContexts c }

/-- Embedding of `getConnectionContext`. -/
def getConnectionContext (g : GatewayState) (connectionId : String) :
    Option WebSocketConnectionContext :=
  g.connectionContexts connectionId

/-- Embedding of `performSecurityCheck`: origin validation, then
authentication, then (when a user was resolved) the connection rate limit,
each denial short-circuiting with its structured error; on full success the
authentication result is attached to an allowed verdict. -/
def performSecurityCheck (verifyToken : String → AuthenticationResult)
    (allowedOrigins : List String) (connectionConfig : ConnectionRateLimitConfig)
    (request : WebSocketUpgradeRequest) (connectionId : String) (now : Nat)
    (g : GatewayState) : SecurityCheckResult × GatewayState :=
  let originResult := validateOrigin allowedOrigins request
  if originResult.valid = false then
    ({ allowed := false, error := originResult.error, code := originResult.code }, g)
  else
    let auth := authenticate verifyToken request connectionId now g
    if auth.1.success = false then
      ({ allowed := false, error := auth.1.error, code := auth.1.code }, auth.2)
    else
      match auth.1.user with
      | some user =>
          let rl := checkConnectionRateLimit connectionConfig user.id
            (extractIp request) now auth.2
          if rl.1.allowed = false then
            ({ allowed := false,
               error := some "Rate limit exceeded. Too many connections.",
               code := some 429 }, rl.2)
          else
            ({ allowed := true, result := some auth.1 }, rl.2)
      | none => ({ allowed := true, result := some auth.1 }, auth.2)

end WebSocketSecurityMiddleware

/-! ### Shared helper lemmas -/

namespace WebSocketRateLimiter

theorem getConnectionKey_user_ne_ip (u i : String) :
    getConnectionKey "user" u ≠ getConnectionKey "ip" i := by
  intro h
  have h' := congrArg String.data h
  simp only [getConnectionKey, String.data_append] at h'
  simp at h'

theorem getMessageKey_ne_of_type_ne (c a b : String) (h : a ≠ b) :
    getMessageKey c a ≠ getMessageKey c b := by
  intro he
  apply h
  have h' := congrArg String.data he
  simp only [getMessageKey, String.data_append] at h'
  have h'' := List.append_cancel_left h'
  exact String.ext h''

theorem getMessageKey_ne_of_conn_ne (c₁ c₂ a : String) (h : c₁ ≠ c₂) :
    getMessageKey c₁ a ≠ getMessageKey c₂ a := by
  intro he
  apply h
  have h' := congrArg String.data he
  simp only [getMessageKey, String.data_append, List.append_assoc] at h'
  have h'' := List.append_cancel_left h'
  rw [← List.append_assoc, ← List.append_assoc] at h''
  have h₃ := List.append_cancel_right h''
  exact String.ext (List.append_cancel_right h₃)

theorem incrementMemoryCounter_apply_ne (σ : MemoryStorage) (key k : String)
    (r n : Nat) (h : k ≠ key) : incrementMemoryCounter σ key r n k = σ k := by
  simp [incrementMemoryCounter, h]

theorem incrementCounter_apply_ne (σ : MemoryStorage) (key k : String)
    (w n : Nat) (h : k ≠ key) : incrementCounter σ key w n k = σ k :=
  incrementMemoryCounter_apply_ne σ key k (n + w) n h

theorem pairedCheck_apply_ne (σ : MemoryStorage) (key k : String)
    (m w n : Nat) (h : k ≠ key) : (pairedCheck σ key m w n).2 k = σ k := by
  unfold pairedCheck
  by_cases hallow : (checkMemoryRateLimit σ key m w n).allowed
  · simp [hallow, incrementCounter_apply_ne σ key k w n h]
  · simp [hallow]

theorem checkMemoryRateLimit_congr (σ₁ σ₂ : MemoryStorage) (key : String)
    (m w n : Nat) (h : σ₁ key = σ₂ key) :
    checkMemoryRateLimit σ₁ key m w n = checkMemoryRateLimit σ₂ key m w n := by
  unfold checkMemoryRateLimit
  rw [h]

theorem pairedCheck_fst_congr (σ₁ σ₂ : MemoryStorage) (key : String)
    (m w n : Nat) (h : σ₁ key = σ₂ key) :
    (pairedCheck σ₁ key m w n).1 = (pairedCheck σ₂ key m w n).1 := by
  unfold pairedCheck
  rw [checkMemoryRateLimit_congr σ₁ σ₂ key m w n h]
  by_cases h' : (checkMemoryRateLimit σ₂ key m w n).allowed = true <;> simp [h']

end WebSocketRateLimiter

theorem effCount_incrementCounter_self (σ : MemoryStorage) (key : String)
    (w n : Nat) :
    effCount (WebSocketRateLimiter.incrementCounter σ key w n) key n =
      effCount σ key n + 1 := by
  unfold effCount WebSocketRateLimiter.incrementCounter
    WebSocketRateLimiter.incrementMemoryCounter
  simp only [if_pos rfl]
  cases hσ : σ key with
  | none => simp [Nat.not_lt_of_le (Nat.le_add_right n w)]
  | some st =>
      by_cases hexp : n > st.resetTime
      · simp [hexp, Nat.not_lt_of_le (Nat.le_add_right n w)]
      · simp [hexp]

theorem checkMemoryRateLimit_remaining_of_allowed (σ : MemoryStorage)
    (key : String) (m w n : Nat)
    (h : (WebSocketRateLimiter.checkMemoryRateLimit σ key m w n).allowed = true) :
    (WebSocketRateLimiter.checkMemoryRateLimit σ key m w n).remaining =
      keyRemaining σ key m n := by
  unfold WebSocketRateLimiter.checkMemoryRateLimit at h ⊢
  unfold keyRemaining effCount
  cases hσ : σ key with
  | none => simp
  | some st =>
      by_cases hexp : n > st.resetTime
      · simp [hexp]
      · by_cases hcnt : st.count ≥ m
        · simp [hσ, hexp, hcnt] at h
        · simp [hσ, hexp, hcnt] at h ⊢

theorem effCount_congr (σ₁ σ₂ : MemoryStorage) (key : String) (n : Nat)
    (h : σ₁ key = σ₂ key) : effCount σ₁ key n = effCount σ₂ key n := by
  unfold effCount
  rw [h]

/-! ### C4 — connection admission evaluates two independent keys -/

/-- C4: `checkConnectionRateLimit` is allowed iff both the per-user and the
per-IP key checks pass; on denial the store is unchanged (no partial
increment), and on success both effective counters are incremented together
and the reported `remaining` is the minimum of the two keys' remaining
quotas in the updated store. -/
theorem checkConnectionRateLimit_two_keys (σ σ' : MemoryStorage)
    (res : RateLimitResult) (userId ip : String)
    (config : ConnectionRateLimitConfig) (now : Nat)
    (hrun : WebSocketRateLimiter.checkConnectionRateLimit σ userId ip config now
      = (res, σ')) :
    (res.allowed = true ↔
      (WebSocketRateLimiter.checkMemoryRateLimit σ
        (WebSocketRateLimiter.getConnectionKey "user" userId)
        config.maxConnectionsPerUser config.windowMs now).allowed = true ∧
      (WebSocketRateLimiter.checkMemoryRateLimit σ
        (WebSocketRateLimiter.getConnectionKey "ip" ip)
        config.maxConnectionsPerIp config.windowMs now).allowed = true) ∧
    (res.allowed = false → σ' = σ) ∧
    (res.allowed = true →
      effCount σ' (WebSocketRateLimiter.getConnectionKey "user" userId) now =
        effCount σ (WebSocketRateLimiter.getConnectionKey "user" userId) now + 1 ∧
      effCount σ' (WebSocketRateLimiter.getConnectionKey "ip" ip) now =
        effCount σ (WebSocketRateLimiter.getConnectionKey "ip" ip) now + 1 ∧
      res.remaining =
        min (keyRemaining σ' (WebSocketRateLimiter.getConnectionKey "user" userId)
              config.maxConnectionsPerUser now)
            (keyRemaining σ' (WebSocketRateLimiter.getConnectionKey "ip" ip)
              config.maxConnectionsPerIp now)) := by
  have hkey : WebSocketRateLimiter.getConnectionKey "ip" ip ≠
      WebSocketRateLimiter.getConnectionKey "user" userId :=
    Ne.symm (WebSocketRateLimiter.getConnectionKey_user_ne_ip userId ip)
  by_cases hu : (WebSocketRateLimiter.checkMemoryRateLimit σ
      (WebSocketRateLimiter.getConnectionKey "user" userId)
      config.maxConnectionsPerUser config.windowMs now).allowed = true
  · by_cases hi : (WebSocketRateLimiter.checkMemoryRateLimit σ
        (WebSocketRateLimiter.getConnectionKey "ip" ip)
        config.maxConnectionsPerIp config.windowMs now).allowed = true
    · simp only [WebSocketRateLimiter.checkConnectionRateLimit, hu, hi,
        Bool.true_eq_false, if_false, Prod.mk.injEq] at hrun
      obtain ⟨h1, h2⟩ := hrun
      subst h1
      subst h2
      refine ⟨by simp [hu, hi], by intro h; simp at h, ?_⟩
      intro _
      have huser : effCount
          (WebSocketRateLimiter.incrementCounter
            (WebSocketRateLimiter.incrementCounter σ
              (WebSocketRateLimiter.getConnectionKey "user" userId)
              config.windowMs now)
            (WebSocketRateLimiter.getConnectionKey "ip" ip) config.windowMs now)
          (WebSocketRateLimiter.getConnectionKey "user" userId) now =
          effCount σ (WebSocketRateLimiter.getConnectionKey "user" userId) now + 1 := by
        rw [effCount_congr _ _ _ _
          (WebSocketRateLimiter.incrementCounter_apply_ne _ _ _ _ _ (Ne.symm hkey))]
        exact effCount_incrementCounter_self σ _ config.windowMs now
      have hip : effCount
          (WebSocketRateLimiter.incrementCounter
            (WebSocketRateLimiter.incrementCounter σ
              (WebSocketRateLimiter.getConnectionKey "user" userId)
              config.windowMs now)
            (WebSocketRateLimiter.getConnectionKey "ip" ip) config.windowMs now)
          (WebSocketRateLimiter.getConnectionKey "ip" ip) now =
          effCount σ (WebSocketRateLimiter.getConnectionKey "ip" ip) now + 1 := by
        rw [effCount_incrementCounter_self]
        rw [effCount_congr _ _ _ _
          (WebSocketRateLimiter.incrementCounter_apply_ne _ _ _ _ _ hkey)]
      refine ⟨huser, hip, ?_⟩
      unfold keyRemaining
      rw [huser, hip,
        checkMemoryRateLimit_remaining_of_allowed σ _ _ _ _ hu,
        checkMemoryRateLimit_remaining_of_allowed σ _ _ _ _ hi]
      unfold keyRemaining
      push_cast
      omega
    · have hi' : (WebSocketRateLimiter.checkMemoryRateLimit σ
          (WebSocketRateLimiter.getConnectionKey "ip" ip)
          config.maxConnectionsPerIp config.windowMs now).allowed = false :=
        Bool.not_eq_true _ ▸ hi
      simp only [WebSocketRateLimiter.checkConnectionRateLimit, hu, hi',
        Bool.true_eq_false, if_false, if_true, Prod.mk.injEq] at hrun
      obtain ⟨h1, h2⟩ := hrun
      subst h1
      subst h2
      exact ⟨by simp [hi'], fun _ => rfl, by intro h; simp [hi'] at h⟩
  · have hu' : (WebSocketRateLimiter.checkMemoryRateLimit σ
        (WebSocketRateLimiter.getConnectionKey "user" userId)
        config.maxConnectionsPerUser config.windowMs now).allowed = false :=
      Bool.not_eq_true _ ▸ hu
    simp only [WebSocketRateLimiter.checkConnectionRateLimit, hu',
      if_true, Prod.mk.injEq] at hrun
    obtain ⟨h1, h2⟩ := hrun
    subst h1
    subst h2
    exact ⟨by simp [hu'], fun _ => rfl, by intro h; simp [hu'] at h⟩

theorem checkConnectionRateLimit_two_keys_witness :
    effCount (WebSocketRateLimiter.checkConnectionRateLimit
        MemoryStorage.empty "u1" "1.2.3.4"
        { maxConnectionsPerUser := 2, maxConnectionsPerIp := 10,
          windowMs := 60000 } 100).2
      (WebSocketRateLimiter.getConnectionKey "user" "u1") 100 =
      effCount MemoryStorage.empty
        (WebSocketRateLimiter.getConnectionKey "user" "u1") 100 + 1 ∧
    effCount (WebSocketRateLimiter.checkConnectionRateLimit
        MemoryStorage.empty "u1" "1.2.3.4"
        { maxConnectionsPerUser := 2, maxConnectionsPerIp := 10,
          windowMs := 60000 } 100).2
      (WebSocketRateLimiter.getConnectionKey "ip" "1.2.3.4") 100 =
      effCount MemoryStorage.empty
        (WebSocketRateLimiter.getConnectionKey "ip" "1.2.3.4") 100 + 1 ∧
    (WebSocketRateLimiter.checkConnectionRateLimit
        MemoryStorage.empty "u1" "1.2.3.4"
        { maxConnectionsPerUser := 2, maxConnectionsPerIp := 10,
          windowMs := 60000 } 100).1.remaining =
      min (keyRemaining (WebSocketRateLimiter.checkConnectionRateLimit
            MemoryStorage.empty "u1" "1.2.3.4"
            { maxConnectionsPerUser := 2, maxConnectionsPerIp := 10,
              windowMs := 60000 } 100).2
          (WebSocketRateLimiter.getConnectionKey "user" "u1") 2 100)
        (keyRemaining (WebSocketRateLimiter.checkConnectionRateLimit
            MemoryStorage.empty "u1" "1.2.3.4"
            { maxConnectionsPerUser := 2, maxConnectionsPerIp := 10,
              windowMs := 60000 } 100).2
          (WebSocketRateLimiter.getConnectionKey "ip" "1.2.3.4") 10 100) :=
  (checkConnectionRateLimit_two_keys MemoryStorage.empty _ _ "u1" "1.2.3.4"
    { maxConnectionsPerUser := 2, maxConnectionsPerIp := 10, windowMs := 60000 }
    100 rfl).2.2 (by decide)

/-! ### C6 — message-level rate limiting is isolated per key -/

/-- Sequence of message-rate-limit calls for one `(connectionId,
messageType)` pair, modelling a burst that may exhaust the pair's quota. -/
def messageBurst (messageLimits : String → Option RateLimitConfig)
    (defaultLimit : RateLimitConfig) (connectionId messageType : String)
    (times : List Nat) (σ : MemoryStorage) : MemoryStorage :=
  times.foldl
    (fun s t => (WebSocketRateLimiter.checkMessageRateLimit messageLimits
      defaultLimit s connectionId messageType t).2) σ

theorem checkMessageRateLimit_apply_ne
    (messageLimits : String → Option RateLimitConfig)
    (defaultLimit : RateLimitConfig) (σ : MemoryStorage)
    (connectionId messageType : String) (now : Nat) (k : String)
    (h : k ≠ WebSocketRateLimiter.getMessageKey connectionId messageType) :
    (WebSocketRateLimiter.checkMessageRateLimit messageLimits defaultLimit σ
      connectionId messageType now).2 k = σ k := by
  unfold WebSocketRateLimiter.checkMessageRateLimit
  exact WebSocketRateLimiter.pairedCheck_apply_ne σ _ k _ _ _ h

theorem messageBurst_apply_ne
    (messageLimits : String → Option RateLimitConfig)
    (defaultLimit : RateLimitConfig) (connectionId messageType : String)
    (k : String)
    (h : k ≠ WebSocketRateLimiter.getMessageKey connectionId messageType) :
    ∀ (times : List Nat) (σ : MemoryStorage),
      messageBurst messageLimits defaultLimit connectionId messageType times σ k
        = σ k := by
  intro times
  induction times with
  | nil => intro σ; rfl
  | cons t rest ih =>
      intro σ
      unfold messageBurst at ih ⊢
      rw [List.foldl_cons, ih]
      exact checkMessageRateLimit_apply_ne messageLimits defaultLimit σ
        connectionId messageType t k h

theorem checkMessageRateLimit_fst_congr
    (messageLimits : String → Option RateLimitConfig)
    (defaultLimit : RateLimitConfig) (σ₁ σ₂ : MemoryStorage)
    (connectionId messageType : String) (now : Nat)
    (h : σ₁ (WebSocketRateLimiter.getMessageKey connectionId messageType) =
         σ₂ (WebSocketRateLimiter.getMessageKey connectionId messageType)) :
    (WebSocketRateLimiter.checkMessageRateLimit messageLimits defaultLimit σ₁
      connectionId messageType now).1 =
    (WebSocketRateLimiter.checkMessageRateLimit messageLimits defaultLimit σ₂
      connectionId messageType now).1 := by
  unfold WebSocketRateLimiter.checkMessageRateLimit
  exact WebSocketRateLimiter.pairedCheck_fst_congr σ₁ σ₂ _ _ _ _ h

/-- C6: any burst of checks for message type `A` on connection `C` leaves
the stored counter of every other pair — a different type `B` on `C`, or the
same type `A` on a different connection `C₂` — untouched, and leaves the
verdict of a subsequent check for that other pair unchanged; a message type
not present in the configured limits is checked against the default quota. -/
theorem messageRateLimit_isolation
    (messageLimits : String → Option RateLimitConfig)
    (defaultLimit : RateLimitConfig) (σ : MemoryStorage) (c a : String)
    (times : List Nat) (now : Nat) :
    (∀ b, b ≠ a →
      messageBurst messageLimits defaultLimit c a times σ
          (WebSocketRateLimiter.getMessageKey c b) =
        σ (WebSocketRateLimiter.getMessageKey c b) ∧
      ∀ t, (WebSocketRateLimiter.checkMessageRateLimit messageLimits
            defaultLimit (messageBurst messageLimits defaultLimit c a times σ)
            c b t).1 =
          (WebSocketRateLimiter.checkMessageRateLimit messageLimits
            defaultLimit σ c b t).1) ∧
    (∀ c₂, c₂ ≠ c →
      messageBurst messageLimits defaultLimit c a times σ
          (WebSocketRateLimiter.getMessageKey c₂ a) =
        σ (WebSocketRateLimiter.getMessageKey c₂ a) ∧
      ∀ t, (WebSocketRateLimiter.checkMessageRateLimit messageLimits
            defaultLimit (messageBurst messageLimits defaultLimit c a times σ)
            c₂ a t).1 =
          (WebSocketRateLimiter.checkMessageRateLimit messageLimits
            defaultLimit σ c₂ a t).1) ∧
    (messageLimits a = none →
      WebSocketRateLimiter.checkMessageRateLimit messageLimits defaultLimit σ
        c a now =
      WebSocketRateLimiter.pairedCheck σ
        (WebSocketRateLimiter.getMessageKey c a) defaultLimit.maxRequests
        defaultLimit.windowMs now) := by
  refine ⟨?_, ?_, ?_⟩
  · intro b hb
    have hk : WebSocketRateLimiter.getMessageKey c b ≠
        WebSocketRateLimiter.getMessageKey c a :=
      WebSocketRateLimiter.getMessageKey_ne_of_type_ne c b a hb
    have hframe := messageBurst_apply_ne messageLimits defaultLimit c a _ hk
      times σ
    exact ⟨hframe, fun t => checkMessageRateLimit_fst_congr messageLimits
      defaultLimit _ σ c b t hframe⟩
  · intro c₂ hc₂
    have hk : WebSocketRateLimiter.getMessageKey c₂ a ≠
        WebSocketRateLimiter.getMessageKey c a :=
      WebSocketRateLimiter.getMessageKey_ne_of_conn_ne c₂ c a hc₂
    have hframe := messageBurst_apply_ne messageLimits defaultLimit c a _ hk
      times σ
    exact ⟨hframe, fun t => checkMessageRateLimit_fst_congr messageLimits
      defaultLimit _ σ c₂ a t hframe⟩
  · intro hnone
    unfold WebSocketRateLimiter.checkMessageRateLimit
    rw [hnone]
    rfl

theorem messageRateLimit_isolation_witness :
    messageBurst
        (fun t => if t = "CHAT" then
          some { windowMs := 1000, maxRequests := 1 } else none)
        { windowMs := 1000, maxRequests := 5 } "c1" "CHAT" [10, 20]
        MemoryStorage.empty
        (WebSocketRateLimiter.getMessageKey "c1" "STATUS") =
      MemoryStorage.empty
        (WebSocketRateLimiter.getMessageKey "c1" "STATUS") ∧
    (WebSocketRateLimiter.checkMessageRateLimit
        (fun t => if t = "CHAT" then
          some { windowMs := 1000, maxRequests := 1 } else none)
        { windowMs := 1000, maxRequests := 5 }
        (messageBurst
          (fun t => if t = "CHAT" then
            some { windowMs := 1000, maxRequests := 1 } else none)
          { windowMs := 1000, maxRequests := 5 } "c1" "CHAT" [10, 20]
          MemoryStorage.empty)
        "c1" "STATUS" 30).1 =
    (WebSocketRateLimiter.checkMessageRateLimit
        (fun t => if t = "CHAT" then
          some { windowMs := 1000, maxRequests := 1 } else none)
        { windowMs := 1000, maxRequests := 5 }
        MemoryStorage.empty "c1" "STATUS" 30).1 :=
  have h := (messageRateLimit_isolation
    (fun t => if t = "CHAT" then
      some { windowMs := 1000, maxRequests := 1 } else none)
    { windowMs := 1000, maxRequests := 5 } MemoryStorage.empty "c1" "CHAT"
    [10, 20] 30).1 "STATUS" (by decide)
  ⟨h.1, h.2 30⟩

/-! ### C10 — gateway message check with and without a registered context -/

/-- C10: the gateway's `checkMessageRateLimit` always returns the limiter's
verdict; when the connection id is not registered the registry is unchanged
(and the verdict may still be allowed), and when it is registered the
context's `messageCount` and `lastActivity` are updated exactly when the
verdict is allowed, other registry entries never changing. -/
theorem gw_checkMessageRateLimit_frame
    (messageLimits : String → Option RateLimitConfig)
    (defaultLimit : RateLimitConfig) (connectionId messageType : String)
    (now : Nat) (g g' : GatewayState) (res : RateLimitResult)
    (hrun : WebSocketSecurityMiddleware.checkMessageRateLimit messageLimits
      defaultLimit connectionId messageType now g = (res, g')) :
    res = (WebSocketRateLimiter.checkMessageRateLimit messageLimits
      defaultLimit g.memoryStorage connectionId messageType now).1 ∧
    (g.connectionContexts connectionId = none →
      g'.connectionContexts = g.connectionContexts) ∧
    (∀ context, g.connectionContexts connectionId = some context →
      (res.allowed = true →
        g'.connectionContexts connectionId =
          some { context with messageCount := context.messageCount + 1,
                              lastActivity := now } ∧
        (∀ idOther, idOther ≠ connectionId →
          g'.connectionContexts idOther = g.connectionContexts idOther)) ∧
      (res.allowed = false →
        g'.connectionContexts = g.connectionContexts)) := by
  by_cases hallow : (WebSocketRateLimiter.checkMessageRateLimit messageLimits
      defaultLimit g.memoryStorage connectionId messageType now).1.allowed = true
  · cases hctx : g.connectionContexts connectionId with
    | none =>
        simp only [WebSocketSecurityMiddleware.checkMessageRateLimit, hallow,
          hctx, if_true, Prod.mk.injEq] at hrun
        obtain ⟨h1, h2⟩ := hrun
        subst h1
        subst h2
        refine ⟨rfl, fun _ => rfl, ?_⟩
        intro context hcc
        exact absurd hcc (by simp)
    | some context =>
        simp only [WebSocketSecurityMiddleware.checkMessageRateLimit, hallow,
          hctx, if_true, Prod.mk.injEq] at hrun
        obtain ⟨h1, h2⟩ := hrun
        subst h1
        subst h2
        refine ⟨rfl, fun h => absurd h (by simp), ?_⟩
        intro context' hcc
        obtain rfl : context = context' := by injection hcc
        refine ⟨fun _ => ⟨by simp, fun idOther hne => by simp [hne]⟩, ?_⟩
        intro hfalse
        rw [hallow] at hfalse
        exact absurd hfalse (by simp)
  · have hallow' : (WebSocketRateLimiter.checkMessageRateLimit messageLimits
        defaultLimit g.memoryStorage connectionId messageType now).1.allowed
        = false := Bool.not_eq_true _ ▸ hallow
    simp only [WebSocketSecurityMiddleware.checkMessageRateLimit, hallow',
      Bool.false_eq_true, if_false, Prod.mk.injEq] at hrun
    obtain ⟨h1, h2⟩ := hrun
    subst h1
    subst h2
    exact ⟨rfl, fun _ => rfl,
      fun context _ => ⟨fun h => absurd (hallow'.symm.trans h) (by simp),
        fun _ => rfl⟩⟩

theorem gw_checkMessageRateLimit_frame_witness :
    (WebSocketSecurityMiddleware.checkMessageRateLimit
        (fun _ => none) { windowMs := 1000, maxRequests := 5 }
        "c1" "CHAT" 10 GatewayState.initial).2.connectionContexts =
      GatewayState.initial.connectionContexts :=
  (gw_checkMessageRateLimit_frame (fun _ => none)
    { windowMs := 1000, maxRequests := 5 } "c1" "CHAT" 10
    GatewayState.initial _ _ rfl).2.1 rfl

/-! ### C2 — fixed-window quota is a hard ceiling -/

namespace WebSocketRateLimiter

theorem verdictsFor_cons_self (k : String) (b : Bool)
    (trace : List (String × Bool)) :
    verdictsFor k ((k, b) :: trace) = b :: verdictsFor k trace := by
  simp [verdictsFor]

theorem verdictsFor_cons_ne (k k' : String) (b : Bool)
    (trace : List (String × Bool)) (h : k' ≠ k) :
    verdictsFor k ((k', b) :: trace) = verdictsFor k trace := by
  simp [verdictsFor, h]

theorem countFor_cons_self (k : String) (op : RLOp) (ops : List RLOp)
    (h : op.key = k) : countFor k (op :: ops) = countFor k ops + 1 := by
  simp [countFor, h, List.filter_cons]

theorem countFor_cons_ne (k : String) (op : RLOp) (ops : List RLOp)
    (h : op.key ≠ k) : countFor k (op :: ops) = countFor k ops := by
  simp [countFor, h, List.filter_cons]

theorem pairedCheck_fresh (σ : MemoryStorage) (k : String) (m w n : Nat)
    (hσ : σ k = none) :
    (pairedCheck σ k m w n).1.allowed = true ∧
    (pairedCheck σ k m w n).2 k = some { count := 1, resetTime := n + w } := by
  have hc : checkMemoryRateLimit σ k m w n =
      { allowed := true, remaining := (m : Int), resetTime := n + w } := by
    unfold checkMemoryRateLimit
    rw [hσ]
  constructor
  · simp [pairedCheck, hc]
  · simp only [pairedCheck, hc, if_true]
    simp [incrementCounter, incrementMemoryCounter, hσ]

theorem pairedCheck_current_allowed (σ : MemoryStorage) (k : String)
    (m w n c r : Nat) (hσ : σ k = some { count := c, resetTime := r })
    (hn : n ≤ r) (hcm : c < m) :
    (pairedCheck σ k m w n).1.allowed = true ∧
    (pairedCheck σ k m w n).2 k = some { count := c + 1, resetTime := r } := by
  have hc : checkMemoryRateLimit σ k m w n =
      { allowed := true, remaining := (m : Int) - (c : Int), resetTime := r } := by
    unfold checkMemoryRateLimit
    rw [hσ]
    simp [Nat.not_lt.2 hn, Nat.not_le.2 hcm]
  constructor
  · simp [pairedCheck, hc]
  · simp only [pairedCheck, hc, if_true]
    simp [incrementCounter, incrementMemoryCounter, hσ, Nat.not_lt.2 hn]

theorem pairedCheck_current_denied (σ : MemoryStorage) (k : String)
    (m w n c r : Nat) (hσ : σ k = some { count := c, resetTime := r })
    (hn : n ≤ r) (hcm : m ≤ c) :
    (pairedCheck σ k m w n).1.allowed = false ∧
    (pairedCheck σ k m w n).2 = σ := by
  have hc : checkMemoryRateLimit σ k m w n =
      { allowed := false, remaining := 0, resetTime := r } := by
    unfold checkMemoryRateLimit
    rw [hσ]
    simp [Nat.not_lt.2 hn, hcm]
  constructor
  · simp [pairedCheck, hc]
  · simp [pairedCheck, hc]

theorem runOps_append (l₁ l₂ : List RLOp) :
    ∀ σ : MemoryStorage,
      runOps σ (l₁ ++ l₂) =
        ((runOps σ l₁).1 ++ (runOps (runOps σ l₁).2 l₂).1,
         (runOps (runOps σ l₁).2 l₂).2) := by
  induction l₁ with
  | nil => intro σ; rfl
  | cons op rest ih =>
      intro σ
      show runOps σ (op :: (rest ++ l₂)) = _
      simp only [runOps]
      rw [ih]
      simp

theorem runOps_no_key (k : String) :
    ∀ (ops : List RLOp) (σ : MemoryStorage), (∀ op ∈ ops, op.key ≠ k) →
      verdictsFor k (runOps σ ops).1 = [] ∧ (runOps σ ops).2 k = σ k := by
  intro ops
  induction ops with
  | nil => intro σ _; exact ⟨rfl, rfl⟩
  | cons op rest ih =>
      intro σ hops
      have hk : op.key ≠ k := hops op (List.mem_cons_self op rest)
      have hstep : (pairedCheck σ op.key op.maxRequests op.windowMs op.now).2 k
          = σ k := pairedCheck_apply_ne σ op.key k _ _ _ (Ne.symm hk)
      have ihr := ih (pairedCheck σ op.key op.maxRequests op.windowMs op.now).2
        (fun op' h' => hops op' (List.mem_cons_of_mem op h'))
      simp only [runOps]
      exact ⟨by rw [verdictsFor_cons_ne k op.key _ _ hk]; exact ihr.1,
        ihr.2.trans hstep⟩

/-- Per-key invariant of an interleaved trace of paired check-then-increment
calls: starting from a current window for key `k` holding count `c ≤ N`,
every call on `k` within the window and with ceiling `N` is allowed exactly
while the count is below `N`, and the stored count never passes `N`. -/
theorem runOps_key_inv (k : String) (N : Nat) :
    ∀ (ops : List RLOp) (σ : MemoryStorage) (c r : Nat),
      σ k = some { count := c, resetTime := r } → c ≤ N →
      (∀ op ∈ ops, op.key = k → op.maxRequests = N ∧ op.now ≤ r) →
      verdictsFor k (runOps σ ops).1 =
        (List.range (countFor k ops)).map (fun i => decide (c + i < N)) ∧
      (runOps σ ops).2 k =
        some { count := min (c + countFor k ops) N, resetTime := r } := by
  intro ops
  induction ops with
  | nil =>
      intro σ c r hσ hc _
      refine ⟨rfl, ?_⟩
      show σ k = _
      rw [hσ]
      simp [countFor, Nat.min_eq_left hc]
  | cons op rest ih =>
      intro σ c r hσ hc hops
      obtain ⟨key₀, max₀, win₀, now₀⟩ := op
      have hops' : ∀ op' ∈ rest, op'.key = k →
          op'.maxRequests = N ∧ op'.now ≤ r :=
        fun op' h' => hops op' (List.mem_cons_of_mem _ h')
      by_cases hk : key₀ = k
      · subst hk
        obtain ⟨hmax, hnow⟩ :=
          hops ⟨key₀, max₀, win₀, now₀⟩ (List.mem_cons_self _ _) rfl
        have hmax' : max₀ = N := hmax
        have hnow' : now₀ ≤ r := hnow
        clear hmax hnow
        subst hmax'
        by_cases hcN : c < max₀
        · have hstep := pairedCheck_current_allowed σ key₀ max₀ win₀ now₀ c r hσ
            hnow' hcN
          have ihr := ih (pairedCheck σ key₀ max₀ win₀ now₀).2 (c + 1) r hstep.2
            (Nat.succ_le_of_lt hcN) hops'
          simp only [runOps]
          constructor
          · rw [verdictsFor_cons_self, hstep.1, ihr.1,
              countFor_cons_self key₀ _ rest rfl,
              List.range_succ_eq_map, List.map_cons, List.map_map]
            simp only [List.cons.injEq]
            constructor
            · exact (decide_eq_true (show c + 0 < max₀ by omega)).symm
            · apply List.map_congr_left
              intro i _
              simp only [Function.comp_apply]
              have harith : c + 1 + i = c + (i + 1) := by omega
              rw [harith]
          · rw [ihr.2, countFor_cons_self key₀ _ rest rfl]
            have harith : c + 1 + countFor key₀ rest =
                c + (countFor key₀ rest + 1) := by
              omega
            rw [harith]
        · have hstep := pairedCheck_current_denied σ key₀ max₀ win₀ now₀ c r hσ
            hnow' (Nat.le_of_not_lt hcN)
          have ihr := ih σ c r hσ hc hops'
          simp only [runOps, hstep.2]
          constructor
          · rw [verdictsFor_cons_self, hstep.1, ihr.1,
              countFor_cons_self key₀ _ rest rfl,
              List.range_succ_eq_map, List.map_cons, List.map_map]
            simp only [List.cons.injEq]
            constructor
            · exact (decide_eq_false (show ¬ c + 0 < max₀ by omega)).symm
            · apply List.map_congr_left
              intro i _
              simp only [Function.comp_apply]
              rw [decide_eq_false (show ¬ c + i < max₀ by omega),
                decide_eq_false (show ¬ c + (i + 1) < max₀ by omega)]
          · rw [ihr.2, countFor_cons_self key₀ _ rest rfl]
            rw [Nat.min_eq_right (show max₀ ≤ c + countFor key₀ rest by omega),
              Nat.min_eq_right
                (show max₀ ≤ c + (countFor key₀ rest + 1) by omega)]
      · have hk' : k ≠ key₀ := Ne.symm hk
        have hstep : (pairedCheck σ key₀ max₀ win₀ now₀).2 k = σ k :=
          pairedCheck_apply_ne σ key₀ k _ _ _ hk'
        have ihr := ih (pairedCheck σ key₀ max₀ win₀ now₀).2 c r
          (hstep.trans hσ) hc hops'
        simp only [runOps]
        rw [verdictsFor_cons_ne k key₀ _ _ hk, countFor_cons_ne k _ rest hk]
        exact ihr

theorem verdictsFor_append (k : String) (t₁ t₂ : List (String × Bool)) :
    verdictsFor k (t₁ ++ t₂) = verdictsFor k t₁ ++ verdictsFor k t₂ := by
  simp [verdictsFor, List.filterMap_append]

theorem countFor_append (k : String) (l₁ l₂ : List RLOp) :
    countFor k (l₁ ++ l₂) = countFor k l₁ + countFor k l₂ := by
  simp [countFor, List.filter_append]

theorem countFor_eq_zero (k : String) (ops : List RLOp)
    (h : ∀ op ∈ ops, op.key ≠ k) : countFor k ops = 0 := by
  simp only [countFor, List.length_eq_zero, List.filter_eq_nil_iff]
  intro op hop
  simpa using h op hop

end WebSocketRateLimiter

/-- C2 counterexample: for a key configured with `maxRequests = 0` the claim
predicts that the first (= `(N+1)`-th) check is denied and the stored count
stays at `0`; in fact the first paired call on a fresh key is allowed (an
absent state always reports a full fresh quota) and stores count `1 > 0`
inside a current window. -/
theorem quota_ceiling_zero_cex :
    WebSocketRateLimiter.verdictsFor "k"
      (WebSocketRateLimiter.runOps MemoryStorage.empty
        [{ key := "k", maxRequests := 0, windowMs := 1000, now := 5 }]).1 =
      [true] ∧
    (WebSocketRateLimiter.runOps MemoryStorage.empty
      [{ key := "k", maxRequests := 0, windowMs := 1000, now := 5 }]).2 "k" =
      some { count := 1, resetTime := 1005 } := by
  constructor <;> decide

/-- C2 (amended, for `maxRequests = N ≥ 1`): in any interleaved trace of
paired check-then-increment calls in which the calls on key `k` start from a
fresh key and all happen within the window opened by the first of them, the
first `N` calls on `k` are allowed and every later one is denied, regardless
of the operations interleaved on other keys; the stored count for `k` never
exceeds `N`; and a stored state whose window has elapsed (`now > resetTime`)
is treated as expired by the check regardless of its count. -/
theorem quota_hard_ceiling (k : String) (N : Nat) (hN : 1 ≤ N)
    (pre : List WebSocketRateLimiter.RLOp) (op₀ : WebSocketRateLimiter.RLOp)
    (rest : List WebSocketRateLimiter.RLOp) (σ : MemoryStorage)
    (hfresh : σ k = none)
    (hpre : ∀ op ∈ pre, op.key ≠ k)
    (hkey : op₀.key = k) (hmax : op₀.maxRequests = N)
    (hrest : ∀ op ∈ rest, op.key = k →
      op.maxRequests = N ∧ op.now ≤ op₀.now + op₀.windowMs) :
    WebSocketRateLimiter.verdictsFor k
      (WebSocketRateLimiter.runOps σ (pre ++ op₀ :: rest)).1 =
      (List.range (WebSocketRateLimiter.countFor k (pre ++ op₀ :: rest))).map
        (fun i => decide (i < N)) ∧
    (∀ st, (WebSocketRateLimiter.runOps σ (pre ++ op₀ :: rest)).2 k = some st →
      st.count ≤ N) ∧
    (∀ (σ' : MemoryStorage) (st : RateLimitState) (maxR win now : Nat),
      σ' k = some st → now > st.resetTime →
      WebSocketRateLimiter.checkMemoryRateLimit σ' k maxR win now =
        { allowed := true, remaining := (maxR : Int), resetTime := now + win }) := by
  obtain ⟨key₀, max₀, win₀, now₀⟩ := op₀
  have hkey' : key₀ = k := hkey
  have hmax' : max₀ = N := hmax
  subst hkey'
  subst hmax'
  have hexpired : ∀ (σ' : MemoryStorage) (st : RateLimitState)
      (maxR win now : Nat), σ' key₀ = some st → now > st.resetTime →
      WebSocketRateLimiter.checkMemoryRateLimit σ' key₀ maxR win now =
        { allowed := true, remaining := (maxR : Int), resetTime := now + win } := by
    intro σ' st maxR win now hσ' hgt
    unfold WebSocketRateLimiter.checkMemoryRateLimit
    rw [hσ']
    simp [hgt]
  have hpre' := WebSocketRateLimiter.runOps_no_key key₀ pre σ hpre
  have hstep := WebSocketRateLimiter.pairedCheck_fresh
    (WebSocketRateLimiter.runOps σ pre).2 key₀ max₀ win₀ now₀
    (hpre'.2.trans hfresh)
  have hinv := WebSocketRateLimiter.runOps_key_inv key₀ max₀ rest
    (WebSocketRateLimiter.pairedCheck (WebSocketRateLimiter.runOps σ pre).2
      key₀ max₀ win₀ now₀).2 1 (now₀ + win₀) hstep.2 hN hrest
  have hcount : WebSocketRateLimiter.countFor key₀
      (pre ++ { key := key₀, maxRequests := max₀, windowMs := win₀,
                now := now₀ } :: rest) =
      WebSocketRateLimiter.countFor key₀ rest + 1 := by
    rw [WebSocketRateLimiter.countFor_append,
      WebSocketRateLimiter.countFor_eq_zero key₀ pre hpre,
      WebSocketRateLimiter.countFor_cons_self key₀
        { key := key₀, maxRequests := max₀, windowMs := win₀, now := now₀ }
        rest rfl]
    omega
  rw [WebSocketRateLimiter.runOps_append, hcount]
  refine ⟨?_, ?_, hexpired⟩
  · simp only [WebSocketRateLimiter.verdictsFor_append, hpre'.1,
      List.nil_append, WebSocketRateLimiter.runOps,
      WebSocketRateLimiter.verdictsFor_cons_self, hstep.1, hinv.1,
      List.range_succ_eq_map, List.map_cons, List.map_map, List.cons.injEq]
    constructor
    · exact (decide_eq_true (show 0 < max₀ by omega)).symm
    · apply List.map_congr_left
      intro i _
      simp only [Function.comp_apply]
      have harith : 1 + i = i + 1 := by omega
      rw [harith]
  · intro st hst
    simp only [WebSocketRateLimiter.runOps] at hst
    rw [hinv.2] at hst
    injection hst with h
    rw [← h]
    exact Nat.min_le_right _ _

theorem quota_hard_ceiling_witness :
    WebSocketRateLimiter.verdictsFor "k"
      (WebSocketRateLimiter.runOps MemoryStorage.empty
        ([{ key := "j", maxRequests := 5, windowMs := 1000, now := 1 }] ++
          { key := "k", maxRequests := 2, windowMs := 1000, now := 10 } ::
          [{ key := "j", maxRequests := 5, windowMs := 1000, now := 15 },
           { key := "k", maxRequests := 2, windowMs := 1000, now := 20 },
           { key := "k", maxRequests := 2, windowMs := 1000, now := 30 }])).1 =
      (List.range (WebSocketRateLimiter.countFor "k"
        ([{ key := "j", maxRequests := 5, windowMs := 1000, now := 1 }] ++
          { key := "k", maxRequests := 2, windowMs := 1000, now := 10 } ::
          [{ key := "j", maxRequests := 5, windowMs := 1000, now := 15 },
           { key := "k", maxRequests := 2, windowMs := 1000, now := 20 },
           { key := "k", maxRequests := 2, windowMs := 1000, now := 30 }]))).map
        (fun i => decide (i < 2)) :=
  (quota_hard_ceiling "k" 2 (by decide)
    [{ key := "j", maxRequests := 5, windowMs := 1000, now := 1 }]
    { key := "k", maxRequests := 2, windowMs := 1000, now := 10 }
    [{ key := "j", maxRequests := 5, windowMs := 1000, now := 15 },
     { key := "k", maxRequests := 2, windowMs := 1000, now := 20 },
     { key := "k", maxRequests := 2, windowMs := 1000, now := 30 }]
    MemoryStorage.empty rfl (by decide) rfl rfl (by decide)).1

/-! ### C1 — performSecurityCheck runs the stages in order and
short-circuits on the first denial -/

/-- C1: `performSecurityCheck` runs origin validation, then authentication,
then the connection rate limit, returning the first denial with its error
and status code without invoking any later stage: an origin denial leaves
the whole state (in particular the `authCalls` spy) untouched, an
authentication denial carries the authenticator's error without touching the
rate limiter, a rate-limit denial yields the 429 denial, and on full success
the authentication result is attached to an allowed verdict. -/
theorem performSecurityCheck_pipeline
    (verifyToken : String → AuthenticationResult)
    (allowedOrigins : List String)
    (connectionConfig : ConnectionRateLimitConfig)
    (request : WebSocketUpgradeRequest) (connectionId : String) (now : Nat)
    (g g' : GatewayState) (out : SecurityCheckResult)
    (hrun : WebSocketSecurityMiddleware.performSecurityCheck verifyToken
      allowedOrigins connectionConfig request connectionId now g = (out, g')) :
    ((WebSocketSecurityMiddleware.validateOrigin allowedOrigins request).valid
        = false →
      out = { allowed := false, result := none,
              error := (WebSocketSecurityMiddleware.validateOrigin
                allowedOrigins request).error,
              code := (WebSocketSecurityMiddleware.validateOrigin
                allowedOrigins request).code } ∧
      g' = g ∧ g'.authCalls = g.authCalls) ∧
    ((WebSocketSecurityMiddleware.validateOrigin allowedOrigins request).valid
        = true →
      (WebSocketAuthHandler.authenticate verifyToken request).success = false →
      out = { allowed := false, result := none,
              error := (WebSocketAuthHandler.authenticate verifyToken
                request).error,
              code := (WebSocketAuthHandler.authenticate verifyToken
                request).code } ∧
      g'.authCalls = g.authCalls + 1 ∧ g'.rateCalls = g.rateCalls ∧
      g'.memoryStorage = g.memoryStorage) ∧
    ((WebSocketSecurityMiddleware.validateOrigin allowedOrigins request).valid
        = true →
      (WebSocketAuthHandler.authenticate verifyToken request).success = true →
      ∀ user,
        (WebSocketAuthHandler.authenticate verifyToken request).user
          = some user →
        ((WebSocketRateLimiter.checkConnectionRateLimit g.memoryStorage
            user.id (WebSocketSecurityMiddleware.extractIp request)
            connectionConfig now).1.allowed = false →
          out = { allowed := false, result := none,
                  error := some "Rate limit exceeded. Too many connections.",
                  code := some 429 } ∧
          g'.authCalls = g.authCalls + 1 ∧ g'.rateCalls = g.rateCalls + 1) ∧
        ((WebSocketRateLimiter.checkConnectionRateLimit g.memoryStorage
            user.id (WebSocketSecurityMiddleware.extractIp request)
            connectionConfig now).1.allowed = true →
          out = { allowed := true,
                  result := some (WebSocketAuthHandler.authenticate
                    verifyToken request),
                  error := none, code := none })) := by
  by_cases hvalid : (WebSocketSecurityMiddleware.validateOrigin allowedOrigins
      request).valid = true
  · by_cases hsucc : (WebSocketAuthHandler.authenticate verifyToken
        request).success = true
    · cases huser : (WebSocketAuthHandler.authenticate verifyToken
          request).user with
      | none =>
          simp only [WebSocketSecurityMiddleware.performSecurityCheck,
            WebSocketSecurityMiddleware.authenticate, hvalid, hsucc, huser,
            Bool.true_eq_false, if_false, if_true, Prod.mk.injEq] at hrun
          obtain ⟨h1, h2⟩ := hrun
          subst h1
          subst h2
          refine ⟨fun h => absurd h (by simp [hvalid]), ?_, ?_⟩
          · intro _ h
            exact absurd (hsucc.symm.trans h) (by simp)
          · intro _ _ user hu
            exact absurd hu (by simp)
      | some user =>
          by_cases hrl : (WebSocketRateLimiter.checkConnectionRateLimit
              g.memoryStorage user.id
              (WebSocketSecurityMiddleware.extractIp request)
              connectionConfig now).1.allowed = true
          · simp only [WebSocketSecurityMiddleware.performSecurityCheck,
              WebSocketSecurityMiddleware.authenticate,
              WebSocketSecurityMiddleware.checkConnectionRateLimit,
              hvalid, hsucc, huser, hrl,
              Bool.true_eq_false, if_false, if_true, Prod.mk.injEq] at hrun
            obtain ⟨h1, h2⟩ := hrun
            subst h1
            subst h2
            refine ⟨fun h => absurd h (by simp [hvalid]), ?_, ?_⟩
            · intro _ h
              exact absurd (hsucc.symm.trans h) (by simp)
            · intro _ _ user' hu
              obtain rfl : user = user' := by injection hu
              refine ⟨fun h => absurd (hrl.symm.trans h) (by simp),
                fun _ => rfl⟩
          · have hrl' : (WebSocketRateLimiter.checkConnectionRateLimit
                g.memoryStorage user.id
                (WebSocketSecurityMiddleware.extractIp request)
                connectionConfig now).1.allowed = false :=
              Bool.not_eq_true _ ▸ hrl
            simp only [WebSocketSecurityMiddleware.performSecurityCheck,
              WebSocketSecurityMiddleware.authenticate,
              WebSocketSecurityMiddleware.checkConnectionRateLimit,
              hvalid, hsucc, huser, hrl',
              Bool.true_eq_false, Bool.false_eq_true, if_false, if_true,
              Prod.mk.injEq] at hrun
            obtain ⟨h1, h2⟩ := hrun
            subst h1
            subst h2
            refine ⟨fun h => absurd h (by simp [hvalid]), ?_, ?_⟩
            · intro _ h
              exact absurd (hsucc.symm.trans h) (by simp)
            · intro _ _ user' hu
              obtain rfl : user = user' := by injection hu
              exact ⟨fun _ => ⟨rfl, rfl, rfl⟩,
                fun h => absurd (hrl'.symm.trans h) (by simp)⟩
    · have hsucc' : (WebSocketAuthHandler.authenticate verifyToken
          request).success = false := Bool.not_eq_true _ ▸ hsucc
      simp only [WebSocketSecurityMiddleware.performSecurityCheck,
        WebSocketSecurityMiddleware.authenticate, hvalid, hsucc',
        Bool.true_eq_false, Bool.false_eq_true, if_false, if_true,
        Prod.mk.injEq] at hrun
      obtain ⟨h1, h2⟩ := hrun
      subst h1
      subst h2
      refine ⟨fun h => absurd h (by simp [hvalid]), fun _ _ => ⟨rfl, rfl, rfl, rfl⟩, ?_⟩
      intro _ h
      exact absurd (hsucc'.symm.trans h) (by simp)
  · have hvalid' : (WebSocketSecurityMiddleware.validateOrigin allowedOrigins
        request).valid = false := Bool.not_eq_true _ ▸ hvalid
    simp only [WebSocketSecurityMiddleware.performSecurityCheck, hvalid',
      if_true, Prod.mk.injEq] at hrun
    obtain ⟨h1, h2⟩ := hrun
    subst h1
    subst h2
    refine ⟨fun _ => ⟨rfl, rfl, rfl⟩, ?_, ?_⟩
    · intro h
      exact absurd (hvalid'.symm.trans h) (by simp)
    · intro h
      exact absurd (hvalid'.symm.trans h) (by simp)

theorem performSecurityCheck_pipeline_witness :
    (WebSocketSecurityMiddleware.performSecurityCheck
        (fun _ => { success := true }) ["https://app.example.dev"]
        DEFAULT_CONNECTION_RATE_LIMIT
        { origin := HeaderValue.str "https://evil.com",
          url := some "/ws?token=t" } "conn1" 100
        GatewayState.initial).1 =
      { allowed := false, result := none,
        error := some "Origin not allowed", code := some 403 } ∧
    (WebSocketSecurityMiddleware.performSecurityCheck
        (fun _ => { success := true }) ["https://app.example.dev"]
        DEFAULT_CONNECTION_RATE_LIMIT
        { origin := HeaderValue.str "https://evil.com",
          url := some "/ws?token=t" } "conn1" 100
        GatewayState.initial).2.authCalls = GatewayState.initial.authCalls :=
  have h := (performSecurityCheck_pipeline (fun _ => { success := true })
    ["https://app.example.dev"] DEFAULT_CONNECTION_RATE_LIMIT
    { origin := HeaderValue.str "https://evil.com", url := some "/ws?token=t" }
    "conn1" 100 GatewayState.initial _ _ rfl).1 (by decide)
  ⟨h.1, h.2.2⟩

/-! ### C3 — registry insertion happens at authentication, not after the
rate-limit stage -/

/-- C3 counterexample: with a per-user quota already exhausted, a request
with a valid origin and a successfully verified token is denied at the
rate-limit stage (429) by `performSecurityCheck`, yet a fresh
`ConnectionContext` for the attempt is left behind in the registry, because
`authenticate` inserts it before the rate-limit check runs. -/
theorem registry_insert_rate_denied_cex :
    (WebSocketSecurityMiddleware.performSecurityCheck
        (fun _ => { success := true,
                    user := some { id := "u1", email := "u1@x.com",
                                   roles := [], permissions := [],
                                   sessionId := "s1" } })
        ["http://localhost:3000"]
        { maxConnectionsPerUser := 1, maxConnectionsPerIp := 10,
          windowMs := 60000 }
        { origin := HeaderValue.str "http://localhost:3000",
          url := some "/ws?token=t", remoteAddress := some "1.2.3.4" }
        "conn1" 500
        { connectionContexts := fun _ => none,
          memoryStorage := fun k =>
            if k = WebSocketRateLimiter.getConnectionKey "user" "u1" then
              some { count := 1, resetTime := 1000 }
            else none,
          authCalls := 0, rateCalls := 0 }).1 =
      { allowed := false, result := none,
        error := some "Rate limit exceeded. Too many connections.",
        code := some 429 } ∧
    ((WebSocketSecurityMiddleware.performSecurityCheck
        (fun _ => { success := true,
                    user := some { id := "u1", email := "u1@x.com",
                                   roles := [], permissions := [],
                                   sessionId := "s1" } })
        ["http://localhost:3000"]
        { maxConnectionsPerUser := 1, maxConnectionsPerIp := 10,
          windowMs := 60000 }
        { origin := HeaderValue.str "http://localhost:3000",
          url := some "/ws?token=t", remoteAddress := some "1.2.3.4" }
        "conn1" 500
        { connectionContexts := fun _ => none,
          memoryStorage := fun k =>
            if k = WebSocketRateLimiter.getConnectionKey "user" "u1" then
              some { count := 1, resetTime := 1000 }
            else none,
          authCalls := 0, rateCalls := 0 }).2.connectionContexts
      "conn1").isSome = true := by
  constructor <;> decide

/-- C3 (amended): `performSecurityCheck` inserts a `ConnectionContext` into
the registry as soon as the authentication stage succeeds, before the
connection-level rate-limit check; an attempt denied at the rate-limit stage
therefore leaves the freshly inserted entry behind.  No entry is inserted
when the origin or the authentication stage denies, and
`handleConnectionClose` removes the entry, so an entry exists iff the
connection passed authentication and has not been closed. -/
theorem registry_insert_at_auth
    (verifyToken : String → AuthenticationResult)
    (allowedOrigins : List String)
    (connectionConfig : ConnectionRateLimitConfig)
    (request : WebSocketUpgradeRequest) (connectionId : String) (now : Nat)
    (g g' : GatewayState) (out : SecurityCheckResult)
    (hrun : WebSocketSecurityMiddleware.performSecurityCheck verifyToken
      allowedOrigins connectionConfig request connectionId now g = (out, g')) :
    ((WebSocketSecurityMiddleware.validateOrigin allowedOrigins request).valid
        = false → g'.connectionContexts = g.connectionContexts) ∧
    ((WebSocketSecurityMiddleware.validateOrigin allowedOrigins request).valid
        = true →
      (WebSocketAuthHandler.authenticate verifyToken request).success = false →
      g'.connectionContexts = g.connectionContexts) ∧
    ((WebSocketSecurityMiddleware.validateOrigin allowedOrigins request).valid
        = true →
      (WebSocketAuthHandler.authenticate verifyToken request).success = true →
      g'.connectionContexts connectionId =
        some { user := (WebSocketAuthHandler.authenticate verifyToken
                 request).user,
               ip := WebSocketSecurityMiddleware.extractIp request,
               origin := WebSocketSecurityMiddleware.jsOrUnknown
                 (WebSocketSecurityMiddleware.extractOrigin request),
               userAgent := WebSocketSecurityMiddleware.jsOrUnknown
                 request.userAgent,
               connectionTime := now, lastActivity := now, messageCount := 0,
               connectionId := connectionId } ∧
      (∀ idOther, idOther ≠ connectionId →
        g'.connectionContexts idOther = g.connectionContexts idOther)) ∧
    (∀ cid h,
      GatewayState.connectionContexts
        (WebSocketSecurityMiddleware.handleConnectionClose cid h) cid = none) := by
  have hclose : ∀ (cid : String) (h : GatewayState),
      GatewayState.connectionContexts
        (WebSocketSecurityMiddleware.handleConnectionClose cid h) cid = none := by
    intro cid h
    unfold WebSocketSecurityMiddleware.handleConnectionClose
    cases h.connectionContexts cid with
    | none => simp
    | some context => cases context.user <;> simp
  by_cases hvalid : (WebSocketSecurityMiddleware.validateOrigin allowedOrigins
      request).valid = true
  · by_cases hsucc : (WebSocketAuthHandler.authenticate verifyToken
        request).success = true
    · cases huser : (WebSocketAuthHandler.authenticate verifyToken
          request).user with
      | none =>
          simp only [WebSocketSecurityMiddleware.performSecurityCheck,
            WebSocketSecurityMiddleware.authenticate, hvalid, hsucc, huser,
            Bool.true_eq_false, if_false, if_true, Prod.mk.injEq] at hrun
          obtain ⟨h1, h2⟩ := hrun
          subst h1
          subst h2
          refine ⟨fun h => absurd h (by simp [hvalid]),
            fun _ h => absurd (hsucc.symm.trans h) (by simp),
            fun _ _ => ⟨by simp [huser], fun idOther hne => by simp [hne]⟩,
            hclose⟩
      | some user =>
          by_cases hrl : (WebSocketRateLimiter.checkConnectionRateLimit
              g.memoryStorage user.id
              (WebSocketSecurityMiddleware.extractIp request)
              connectionConfig now).1.allowed = true
          · simp only [WebSocketSecurityMiddleware.performSecurityCheck,
              WebSocketSecurityMiddleware.authenticate,
              WebSocketSecurityMiddleware.checkConnectionRateLimit,
              hvalid, hsucc, huser, hrl,
              Bool.true_eq_false, if_false, if_true, Prod.mk.injEq] at hrun
            obtain ⟨h1, h2⟩ := hrun
            subst h1
            subst h2
            refine ⟨fun h => absurd h (by simp [hvalid]),
              fun _ h => absurd (hsucc.symm.trans h) (by simp),
              fun _ _ => ⟨by simp [huser], fun idOther hne => by simp [hne]⟩,
              hclose⟩
          · have hrl' : (WebSocketRateLimiter.checkConnectionRateLimit
                g.memoryStorage user.id
                (WebSocketSecurityMiddleware.extractIp request)
                connectionConfig now).1.allowed = false :=
              Bool.not_eq_true _ ▸ hrl
            simp only [WebSocketSecurityMiddleware.performSecurityCheck,
              WebSocketSecurityMiddleware.authenticate,
              WebSocketSecurityMiddleware.checkConnectionRateLimit,
              hvalid, hsucc, huser, hrl',
              Bool.true_eq_false, Bool.false_eq_true, if_false, if_true,
              Prod.mk.injEq] at hrun
            obtain ⟨h1, h2⟩ := hrun
            subst h1
            subst h2
            refine ⟨fun h => absurd h (by simp [hvalid]),
              fun _ h => absurd (hsucc.symm.trans h) (by simp),
              fun _ _ => ⟨by simp [huser], fun idOther hne => by simp [hne]⟩,
              hclose⟩
    · have hsucc' : (WebSocketAuthHandler.authenticate verifyToken
          request).success = false := Bool.not_eq_true _ ▸ hsucc
      simp only [WebSocketSecurityMiddleware.performSecurityCheck,
        WebSocketSecurityMiddleware.authenticate, hvalid, hsucc',
        Bool.true_eq_false, Bool.false_eq_true, if_false, if_true,
        Prod.mk.injEq] at hrun
      obtain ⟨h1, h2⟩ := hrun
      subst h1
      subst h2
      refine ⟨fun h => absurd h (by simp [hvalid]), fun _ _ => rfl,
        fun _ h => absurd (hsucc'.symm.trans h) (by simp), hclose⟩
  · have hvalid' : (WebSocketSecurityMiddleware.validateOrigin allowedOrigins
        request).valid = false := Bool.not_eq_true _ ▸ hvalid
    simp only [WebSocketSecurityMiddleware.performSecurityCheck, hvalid',
      if_true, Prod.mk.injEq] at hrun
    obtain ⟨h1, h2⟩ := hrun
    subst h1
    subst h2
    exact ⟨fun _ => rfl,
      fun h => absurd (hvalid'.symm.trans h) (by simp),
      fun h => absurd (hvalid'.symm.trans h) (by simp), hclose⟩

theorem registry_insert_at_auth_witness :
    (WebSocketSecurityMiddleware.performSecurityCheck
        (fun _ => { success := false, error := some "Invalid token signature",
                    code := some 401 })
        ["http://localhost:3000"] DEFAULT_CONNECTION_RATE_LIMIT
        { origin := HeaderValue.str "http://localhost:3000",
          url := some "/ws?token=bad" } "conn1" 100
        GatewayState.initial).2.connectionContexts =
      GatewayState.initial.connectionContexts :=
  (registry_insert_at_auth
    (fun _ => { success := false, error := some "Invalid token signature",
                code := some 401 })
    ["http://localhost:3000"] DEFAULT_CONNECTION_RATE_LIMIT
    { origin := HeaderValue.str "http://localhost:3000",
      url := some "/ws?token=bad" } "conn1" 100
    GatewayState.initial _ _ rfl).2.1 (by decide) (by decide)

/-! ### C9 — configuration-time secret length guard -/

/-- C9: for every secret shorter than 32 characters, constructing the token
authenticator fails with the configuration error, and the middleware
constructor (which constructs the authenticator) therefore also fails, so no
gateway instance is produced; the guard runs at construction, never per
request. -/
theorem shortSecret_construction_fails (secret : String)
    (algorithm : Option String) (input : SecurityConfigInput)
    (hlen : secret.length < 32) (hin : input.jwtSecret = secret) :
    createWebSocketAuthHandler secret algorithm =
      Except.error "JWT secret must be at least 32 characters long" ∧
    mkWebSocketSecurityMiddleware input =
      Except.error "JWT secret must be at least 32 characters long" := by
  constructor
  · unfold createWebSocketAuthHandler
    simp [hlen]
  · unfold mkWebSocketSecurityMiddleware createWebSocketAuthHandler
    simp [hin, hlen]

theorem shortSecret_construction_fails_witness :
    ("tiny" : String).length < 32 ∧
    createWebSocketAuthHandler "tiny" none =
      Except.error "JWT secret must be at least 32 characters long" ∧
    mkWebSocketSecurityMiddleware { jwtSecret := "tiny" } =
      Except.error "JWT secret must be at least 32 characters long" :=
  ⟨by decide,
   shortSecret_construction_fails "tiny" none { jwtSecret := "tiny" }
     (by decide) rfl⟩

/-! ### C8 — administrative reset / status operations -/

/-- C8 counterexample: on the in-process backend, `getRateLimitStatus` does
apply window-expiry interpretation — a key whose stored state has
`resetTime = 100` is reported as `none` at `now = 200` even though its raw
stored state is present. -/
theorem getRateLimitStatus_window_cex :
    WebSocketRateLimiter.getRateLimitStatus
      (fun k => if k = "k1" then some { count := 3, resetTime := 100 } else none)
      "k1" 200 = none ∧
    ((fun k => if k = "k1" then some { count := 3, resetTime := 100 } else none :
       MemoryStorage))
      "k1" = some { count := 3, resetTime := 100 } := by
  constructor <;> rfl

/-- C8 (amended): `resetRateLimit` clears the key's stored state directly on
both backends; `getRateLimitStatus` returns the raw stored state on the
external-store backend, while on the in-process backend it returns the
stored state only while `now ≤ resetTime` and `none` once the window has
elapsed (the stored state itself is left in place in that case). -/
theorem adminOps_reset_and_status (σ : MemoryStorage)
    (ρ : WebSocketRateLimiter.RedisStorage) (key : String) (now : Nat) :
    WebSocketRateLimiter.resetRateLimit σ key key = none ∧
    (∀ k, k ≠ key → WebSocketRateLimiter.resetRateLimit σ key k = σ k) ∧
    WebSocketRateLimiter.resetRateLimitRedis ρ key key = none ∧
    (∀ k, k ≠ key → WebSocketRateLimiter.resetRateLimitRedis ρ key k = ρ k) ∧
    WebSocketRateLimiter.getRateLimitStatusRedis ρ key = ρ key ∧
    (∀ st, σ key = some st → now ≤ st.resetTime →
      WebSocketRateLimiter.getRateLimitStatus σ key now = some st) ∧
    (∀ st, σ key = some st → now > st.resetTime →
      WebSocketRateLimiter.getRateLimitStatus σ key now = none) ∧
    (σ key = none → WebSocketRateLimiter.getRateLimitStatus σ key now = none) := by
  refine ⟨?_, ?_, ?_, ?_, rfl, ?_, ?_, ?_⟩
  · simp [WebSocketRateLimiter.resetRateLimit]
  · intro k hk; simp [WebSocketRateLimiter.resetRateLimit, hk]
  · simp [WebSocketRateLimiter.resetRateLimitRedis]
  · intro k hk; simp [WebSocketRateLimiter.resetRateLimitRedis, hk]
  · intro st hst hle
    simp [WebSocketRateLimiter.getRateLimitStatus, hst, hle]
  · intro st hst hgt
    simp [WebSocketRateLimiter.getRateLimitStatus, hst, Nat.not_le_of_lt hgt]
  · intro hnone
    simp [WebSocketRateLimiter.getRateLimitStatus, hnone]

theorem adminOps_reset_and_status_witness :
    WebSocketRateLimiter.resetRateLimit
      (fun k => if k = "k1" then some { count := 3, resetTime := 100 } else none)
      "k1" "k1" = none ∧
    WebSocketRateLimiter.getRateLimitStatus
      (fun k => if k = "k1" then some { count := 3, resetTime := 100 } else none)
      "k1" 50 = some { count := 3, resetTime := 100 } :=
  ⟨(adminOps_reset_and_status
      (fun k => if k = "k1" then some { count := 3, resetTime := 100 } else none)
      (fun _ => none) "k1" 50).1,
   ((adminOps_reset_and_status
      (fun k => if k = "k1" then some { count := 3, resetTime := 100 } else none)
      (fun _ => none) "k1" 50).2.2.2.2.2.1
      { count := 3, resetTime := 100 } rfl (by decide))⟩

/-! ### C7 — token extraction degrades malformed input to "no token" -/

/-- C7: an absent `url`, a URL-parse fault (caught by the `try`/`catch`), or
a missing `token` query parameter all make token extraction return `none`
rather than propagating a fault, and `authenticate` then reports a
`success = false` denial with status 401. -/
theorem extractToken_fault_tolerance (request : WebSocketUpgradeRequest)
    (verifyToken : String → AuthenticationResult) :
    (request.url = none → WebSocketAuthHandler.extractTokenFromUrl request = none) ∧
    (∀ e, WebSocketAuthHandler.extractTokenFromUrlE request = Except.error e →
      WebSocketAuthHandler.extractTokenFromUrl request = none) ∧
    (∀ u urlObj, request.url = some u → u ≠ "" →
      WebSocketAuthHandler.parseWsUrl (WebSocketAuthHandler.mkWsUrlString u) =
        Except.ok urlObj →
      WebSocketAuthHandler.searchParamsGet urlObj.query "token" = none →
      WebSocketAuthHandler.extractTokenFromUrl request = none) ∧
    (WebSocketAuthHandler.extractTokenFromUrl request = none →
      WebSocketAuthHandler.authenticate verifyToken request =
        { success := false, user := none,
          error := some "Missing authentication token", code := some 401 }) := by
  refine ⟨?_, ?_, ?_, ?_⟩
  · intro h
    simp [WebSocketAuthHandler.extractTokenFromUrl,
      WebSocketAuthHandler.extractTokenFromUrlE, h]
  · intro e he
    simp [WebSocketAuthHandler.extractTokenFromUrl, he]
  · intro u urlObj hu hne hparse hget
    simp [WebSocketAuthHandler.extractTokenFromUrl,
      WebSocketAuthHandler.extractTokenFromUrlE, hu, hne, hparse, hget]
  · intro h
    simp [WebSocketAuthHandler.authenticate, h]

theorem extractToken_fault_tolerance_witness :
    WebSocketAuthHandler.extractTokenFromUrl { url := none } = none ∧
    WebSocketAuthHandler.authenticate (fun _ => { success := true })
      { url := none } =
      { success := false, user := none,
        error := some "Missing authentication token", code := some 401 } :=
  have h := extractToken_fault_tolerance { url := none }
    (fun _ => { success := true })
  ⟨h.1 rfl, h.2.2.2 (h.1 rfl)⟩

/-! ### C5 — origin matching -/

/-- C5 counterexample: a request carrying an `Origin` header whose value is
the empty string is accepted as valid (JavaScript treats the empty string as
a missing header), although no allow-list entry matches it, contradicting
the claimed "valid if and only if some entry matches". -/
theorem validateOrigin_empty_origin_cex :
    WebSocketSecurityMiddleware.validateOrigin ["https://app.example.dev"]
      { origin := HeaderValue.str "" } =
      { valid := true, error := none, code := none } ∧
    WebSocketSecurityMiddleware.extractOrigin { origin := HeaderValue.str "" } =
      some "" ∧
    (∀ allowed ∈ ["https://app.example.dev"],
      ¬(jsTrim (jsToLower "") = jsTrim (jsToLower allowed) ∨
        jsEndsWith (jsTrim (jsToLower ""))
          ("." ++ WebSocketSecurityMiddleware.stripHttpScheme
            (jsTrim (jsToLower allowed))) = true)) := by
  refine ⟨rfl, rfl, ?_⟩
  decide

/-- C5 (amended): for every request carrying a non-empty `Origin` header,
`validateOrigin` lower-cases and trims the origin and compares it with each
allow-list entry (itself lower-cased and trimmed); the result is valid iff
some entry matches exactly or as a suffix match `.` + the entry stripped of
its http(s):// scheme, and on no match the result is invalid with status 403
and the exact message "Origin not allowed". -/
theorem validateOrigin_matching (allowedOrigins : List String)
    (request : WebSocketUpgradeRequest) (origin : String)
    (hor : WebSocketSecurityMiddleware.extractOrigin request = some origin)
    (hne : origin ≠ "") :
    ((WebSocketSecurityMiddleware.validateOrigin allowedOrigins request).valid = true ↔
      ∃ allowed ∈ allowedOrigins,
        jsTrim (jsToLower origin) = jsTrim (jsToLower allowed) ∨
        jsEndsWith (jsTrim (jsToLower origin))
          ("." ++ WebSocketSecurityMiddleware.stripHttpScheme
            (jsTrim (jsToLower allowed))) = true) ∧
    ((∀ allowed ∈ allowedOrigins,
        ¬(jsTrim (jsToLower origin) = jsTrim (jsToLower allowed) ∨
          jsEndsWith (jsTrim (jsToLower origin))
            ("." ++ WebSocketSecurityMiddleware.stripHttpScheme
              (jsTrim (jsToLower allowed))) = true)) →
      WebSocketSecurityMiddleware.validateOrigin allowedOrigins request =
        { valid := false, error := some "Origin not allowed", code := some 403 }) := by
  have hany : (allowedOrigins.any fun allowed =>
      WebSocketSecurityMiddleware.originMatches (jsTrim (jsToLower origin)) allowed) = true ↔
      ∃ allowed ∈ allowedOrigins,
        jsTrim (jsToLower origin) = jsTrim (jsToLower allowed) ∨
        jsEndsWith (jsTrim (jsToLower origin))
          ("." ++ WebSocketSecurityMiddleware.stripHttpScheme
            (jsTrim (jsToLower allowed))) = true := by
    simp [List.any_eq_true, WebSocketSecurityMiddleware.originMatches,
      Bool.or_eq_true, decide_eq_true_iff]
  by_cases hc : (allowedOrigins.any fun allowed =>
      WebSocketSecurityMiddleware.originMatches (jsTrim (jsToLower origin)) allowed) = true
  · constructor
    · simp [WebSocketSecurityMiddleware.validateOrigin, hor, hne, hc, hany.mp hc]
    · intro hall
      exact absurd (hany.mp hc) (by simpa using hall)
  · constructor
    · simp only [WebSocketSecurityMiddleware.validateOrigin, hor, if_neg hne, hc]
      simp [← hany, hc]
    · intro _
      simp [WebSocketSecurityMiddleware.validateOrigin, hor, hne, hc]

theorem validateOrigin_matching_witness :
    WebSocketSecurityMiddleware.extractOrigin
      { origin := HeaderValue.str "https://evil.com" } = some "https://evil.com" ∧
    WebSocketSecurityMiddleware.validateOrigin ["https://app.example.dev"]
      { origin := HeaderValue.str "https://evil.com" } =
      { valid := false, error := some "Origin not allowed", code := some 403 } :=
  ⟨rfl,
   (validateOrigin_matching ["https://app.example.dev"]
      { origin := HeaderValue.str "https://evil.com" } "https://evil.com"
      rfl (by decide)).2 (by decide)⟩
